import Mathlib

/-!
# FareCompare — verification of the spec against the code

Shallow embedding of the core of `soodaryan/FareCompare`:

* `src/backend/src/services/bus.service.ts` — the GTFS bus itinerary planner,
* `src/backend/src/services/fare.service.ts` — the fare-quote aggregator with cache,
* `src/backend/src/adapters/{ola,rapido,uber}.adapter.ts` — the quote producers,
* `src/backend/src/utils/fare-calculator.ts` — the tariff formula.

Modelling conventions (used consistently below):

* JavaScript floating-point quantities are embedded as exact integers with a fixed
  scaling, since the program only ever produces them by the operations modelled here:
  distances are in metres (the source keeps kilometres; `2.0 km` becomes `2000`),
  coordinates in micro-degrees, money in whole rupees, GTFS times in seconds from
  midnight.  GTFS `HH:MM:SS` strings are represented by their parsed value in seconds
  (`parseTimeSeconds` in the source); the source parses on every comparison, so no
  information is lost.  `Math.floor` of a float quotient becomes `Int.fdiv`,
  `Math.ceil` becomes `cdiv`.
* The haversine `calculateDistance` of `fare-calculator.ts` is floating-point
  trigonometry; it is kept abstract as a parameter `calculateDistance : Int → Int →
  Int → Int → Int` (metres between two micro-degree coordinate pairs).  Every
  definition below is a function of it, exactly as the source is a client of the
  exported function.
* JavaScript `Map`s are embedded as insertion-ordered association lists with
  first-match lookup (`mget`); `Set`s as insertion-ordered lists.
* JavaScript `Array.prototype.sort` with a `(a, b) => key a - key b` comparator is a
  stable sort by `key a ≤ key b`; it is embedded as `List.insertionSort`, which is
  stable and sorted for the same relation.
* Code that `throw`s is embedded in `Except String`; an uncaught JavaScript
  exception is `.error`.
* Strings produced only for display (`"<N> mins"`, `"<X.X> km"`) are represented by
  the number they carry, because the program itself re-parses them with `parseInt`
  (`findRoutes` reads `duration` back); the round trip is the identity on the
  integers produced here.
-/

namespace FareCompare

/-- Ceiling integer division: `cdiv a b = ⌈a / b⌉` for `b > 0`; models
`Math.ceil` applied to a float quotient. -/
def cdiv (a b : Int) : Int := -(Int.fdiv (-a) b)

/-- First-match association-list lookup; models `Map.prototype.get`. -/
def mget {α : Type} (k : String) : List (String × α) → Option α
  | [] => none
  | (k', v) :: rest => if k == k' then some v else mget k rest

/-- `Map.prototype.set`: replace the value at an existing key in place (keeping
insertion order), else append at the end. -/
def mset {α : Type} (k : String) (v : α) : List (String × α) → List (String × α)
  | [] => [(k, v)]
  | (k', v') :: rest => if k == k' then (k, v) :: rest else (k', v') :: mset k v rest

/-- Append `v` to the list stored at `k`, creating `[v]` if absent; models the
`if (!m.has(k)) m.set(k, []); m.get(k).push(v)` idiom of the source. -/
def mpush {α : Type} (k : String) (v : α) : List (String × List α) → List (String × List α)
  | [] => [(k, [v])]
  | (k', vs) :: rest => if k == k' then (k', vs ++ [v]) :: rest else (k', vs) :: mpush k v rest

/-- `if (!m.has(k)) m.set(k, v)` — first writer wins (transfer search maps). -/
def msetIfAbsent {α : Type} (k : String) (v : α) : List (String × α) → List (String × α)
  | [] => [(k, v)]
  | (k', v') :: rest => if k == k' then (k', v') :: rest else (k', v') :: msetIfAbsent k v rest

theorem mget_mem {α : Type} {k : String} {v : α} :
    ∀ {l : List (String × α)}, mget k l = some v → (k, v) ∈ l := by
  intro l
  induction l with
  | nil => intro h; simp [mget] at h
  | cons p rest ih =>
    intro h
    rw [mget] at h
    by_cases hk : (k == p.1) = true
    · simp only [hk, if_pos] at h
      cases h
      have hkeq : k = p.1 := by simpa using hk
      cases p
      subst hkeq
      exact List.mem_cons_self _ _
    · simp only [hk, if_neg, Bool.false_eq_true, not_false_eq_true, if_false] at h
      exact List.mem_cons_of_mem _ (ih h)

instance {ε α : Type} [DecidableEq ε] [DecidableEq α] : DecidableEq (Except ε α) := fun a b =>
  match a, b with
  | .ok x, .ok y => if h : x = y then .isTrue (by rw [h]) else .isFalse (by simp [h])
  | .error x, .error y => if h : x = y then .isTrue (by rw [h]) else .isFalse (by simp [h])
  | .ok _, .error _ => .isFalse (by simp)
  | .error _, .ok _ => .isFalse (by simp)

/-! ## GTFS data model (`bus.service.ts` lines 7–47)

Fields keep the source names.  `stop_lat`/`stop_lon` are micro-degrees;
`arrival_time`/`departure_time` hold the parsed value of the source's `HH:MM:SS`
string in seconds from midnight (see the header comment). -/

structure Stop where
  stop_id : String
  stop_name : String
  stop_lat : Int
  stop_lon : Int
deriving DecidableEq, Repr

structure StopTime where
  trip_id : String
  arrival_time : Int
  departure_time : Int
  stop_id : String
  stop_sequence : Int
deriving DecidableEq, Repr

structure Trip where
  route_id : String
  service_id : String
  trip_id : String
  trip_headsign : Option String
deriving DecidableEq, Repr

structure Route where
  route_id : String
  route_short_name : String
  route_long_name : String
  route_type : String
deriving DecidableEq, Repr

/-- `calendar.csv` row: day columns hold the raw `"0"`/`"1"` strings exactly as the
source keeps them; `start_date`/`end_date` hold the `YYYYMMDD` string's numeral
(integer order on `YYYYMMDD` numerals coincides with date order, which is also the
lexicographic order of the strings). -/
structure Calendar where
  service_id : String
  monday : String
  tuesday : String
  wednesday : String
  thursday : String
  friday : String
  saturday : String
  sunday : String
  start_date : Int
  end_date : Int
deriving DecidableEq, Repr

/-- The in-memory state of `BusService` after `loadData` (the private fields of the
class, lines 76–87). -/
structure BusData where
  stops : List (String × Stop)
  stopTimesByStopId : List (String × List StopTime)
  stopTimesByTripId : List (String × List StopTime)
  trips : List (String × Trip)
  routes : List (String × Route)
  calendar : List (String × Calendar)
  routesByStop : List (String × List String)
  stopsByRoute : List (String × List String)
  isLoaded : Bool
deriving DecidableEq, Repr

/-- A nearby-stop candidate: `{ stop, distance }` with `distance` in metres
(source: kilometres). -/
structure NearStop where
  stop : Stop
  distance : Int
deriving DecidableEq, Repr

/-! ## Small helpers of `BusService` -/

/-- `calculateBusFare` (lines 258–270): DTC slab fare over the leg distance
(metres here; the source compares kilometres `4 / 10 / 15 / 20`). -/
def calculateBusFare (distanceM : Int) : Int :=
  if distanceM ≤ 4000 then 5
  else if distanceM ≤ 10000 then 10
  else if distanceM ≤ 15000 then 15
  else if distanceM ≤ 20000 then 20
  else 25

/-- `calculateDurationInMinutes` (lines 789–796): `Math.floor((end - start) / 60)`. -/
def calculateDurationInMinutes (startSec endSec : Int) : Int :=
  Int.fdiv (endSec - startSec) 60

/-- `Array.prototype.indexOf`: index of the first occurrence, `-1` if absent. -/
def indexOfOr (l : List String) (x : String) : Int :=
  match l.findIdx? (fun s => s == x) with
  | some i => (i : Int)
  | none => -1

/-- `isServiceActive` (lines 488–517): with no calendar entry the service counts as
active; with an entry only the weekday column for `now.getDay()` is consulted —
the `start_date`/`end_date` range is computed into `dateStr` but never compared.
`weekday` is `now.getDay()`: `0 = Sunday, …, 6 = Saturday`. -/
def calDay (cal : Calendar) : Fin 7 → String
  | 0 => cal.sunday
  | 1 => cal.monday
  | 2 => cal.tuesday
  | 3 => cal.wednesday
  | 4 => cal.thursday
  | 5 => cal.friday
  | 6 => cal.saturday

def isServiceActive (calendar : List (String × Calendar)) (weekday : Fin 7)
    (serviceId : String) : Bool :=
  match mget serviceId calendar with
  | none => true
  | some cal => calDay cal weekday == "1"

/-- Modelled from the spec: `spec.md` §3 ServiceCalendar — "A serviceId is `active on
date D` iff startDate ≤ D ≤ endDate and D's weekday is in activeDays; when a
serviceId has no entry, it is treated as always active."  `dateNum` is the query
date as the `YYYYMMDD` numeral (the source computes the same `dateStr`).  This is
the spec-side definition used to compare `isServiceActive` against the claim. -/
def specServiceActive (cal? : Option Calendar) (dateNum : Int) (weekday : Fin 7) : Bool :=
  match cal? with
  | none => true
  | some cal =>
      (decide (cal.start_date ≤ dateNum) && decide (dateNum ≤ cal.end_date))
        && (calDay cal weekday == "1")

/-! ## Sorting relations

JavaScript `sort((a, b) => key a - key b)` is modelled by the stable
`List.insertionSort` over `key a ≤ key b`. -/

/-- Order on `StopTime` by departure time (`findTripForLeg`'s sort). -/
def stLE (a b : StopTime) : Prop := a.departure_time ≤ b.departure_time

instance : DecidableRel stLE := fun a b => Int.decLe a.departure_time b.departure_time

instance : IsTotal StopTime stLE := ⟨fun a b => Int.le_total a.departure_time b.departure_time⟩

instance : IsTrans StopTime stLE := ⟨fun _ _ _ h1 h2 => le_trans h1 h2⟩

/-- Order on `StopTime` by `stop_sequence` (`extractRouteStops`'s sort). -/
def seqLE (a b : StopTime) : Prop := a.stop_sequence ≤ b.stop_sequence

instance : DecidableRel seqLE := fun a b => Int.decLe a.stop_sequence b.stop_sequence

instance : IsTotal StopTime seqLE := ⟨fun a b => Int.le_total a.stop_sequence b.stop_sequence⟩

instance : IsTrans StopTime seqLE := ⟨fun _ _ _ h1 h2 => le_trans h1 h2⟩

/-- Order on nearby-stop candidates by distance. -/
def nearLE (a b : NearStop) : Prop := a.distance ≤ b.distance

instance : DecidableRel nearLE := fun a b => Int.decLe a.distance b.distance

instance : IsTotal NearStop nearLE := ⟨fun a b => Int.le_total a.distance b.distance⟩

instance : IsTrans NearStop nearLE := ⟨fun _ _ _ h1 h2 => le_trans h1 h2⟩

/-! ## `findTripForLeg` (lines 519–554) -/

/-- The record returned by `findTripForLeg`: `{ trip, start, end, stops }`
(`endSt` models the source's `end` field). -/
structure TripLegInfo where
  trip : Trip
  start : StopTime
  endSt : StopTime
  stops : List StopTime
deriving DecidableEq, Repr

/-- The `filter` predicate over `stopTimesByStopId[startStopId]`: the stop time's
trip exists, lies on `routeId`, and its service is active today. -/
def candidateFilter (g : BusData) (weekday : Fin 7) (routeId : String) (st : StopTime) : Bool :=
  match mget st.trip_id g.trips with
  | none => false
  | some trip => trip.route_id == routeId && isServiceActive g.calendar weekday trip.service_id

/-- The alight test inside the candidate loop:
`s.stop_id === endStopId && s.stop_sequence > st.stop_sequence`. -/
def legEndMatches (endStopId : String) (st : StopTime) (s : StopTime) : Bool :=
  s.stop_id == endStopId && decide (st.stop_sequence < s.stop_sequence)

/-- The `for (const st of candidates)` loop: first candidate whose trip's stop list
contains the alight stop strictly later in sequence.  (The source reads
`this.trips.get(st.trip_id)!`; candidates are pre-filtered so the lookup always
succeeds — the `none` fallthrough is unreachable on the lists this is applied to.) -/
def findFirstValidLeg (g : BusData) (endStopId : String) : List StopTime → Option TripLegInfo
  | [] => none
  | st :: rest =>
    match mget st.trip_id g.stopTimesByTripId with
    | none => findFirstValidLeg g endStopId rest
    | some tripStops =>
      match tripStops.find? (legEndMatches endStopId st) with
      | none => findFirstValidLeg g endStopId rest
      | some endSt =>
        match mget st.trip_id g.trips with
        | some trip => some ⟨trip, st, endSt, tripStops⟩
        | none => findFirstValidLeg g endStopId rest

/-- `findTripForLeg(routeId, startStopId, endStopId, afterTimeSec?)`: filter the
boarding stop's stop times, sort by departure, optionally keep departures at or
after `afterTimeSec`, and return the first valid candidate. -/
def findTripForLeg (g : BusData) (weekday : Fin 7) (routeId startStopId endStopId : String)
    (afterTimeSec : Option Int) : Option TripLegInfo :=
  match mget startStopId g.stopTimesByStopId with
  | none => none
  | some startStopTimes =>
    let cands := startStopTimes.filter (candidateFilter g weekday routeId)
    let sorted := List.insertionSort stLE cands
    let bounded :=
      match afterTimeSec with
      | some t => sorted.filter (fun st => decide (t ≤ st.departure_time))
      | none => sorted
    findFirstValidLeg g endStopId bounded

/-! ## Itinerary assembly (lines 556–774) -/

/-- `GeoLocation` of `interfaces/types.ts` (micro-degrees). -/
structure GeoLocation where
  lat : Int
  lng : Int
deriving DecidableEq, Repr

/-- A `{lat, lng, name}` endpoint of a segment. -/
structure SegPoint where
  lat : Int
  lng : Int
  name : String
deriving DecidableEq, Repr

/-- An element of `extractRouteStops`' output / a bus segment's `stops` entry;
`time` is the stop's arrival time in seconds. -/
structure RouteStopOut where
  lat : Int
  lng : Int
  name : String
  sequence : Int
  time : Int
deriving DecidableEq, Repr

inductive SegType where
  | walk
  | bus
deriving DecidableEq, Repr

/-- `RouteSegment` (lines 49–59).  `startPoint`/`endPoint` model the source's
`start`/`end`; `distance` is in metres (source: a formatted string), `duration` in
whole minutes (source: `"<N> mins"`). -/
structure RouteSegment where
  type : SegType
  startPoint : SegPoint
  endPoint : SegPoint
  distance : Int
  duration : Int
  instruction : String
  path : List (Int × Int)
  stops : Option (List RouteStopOut)
  color : String
deriving DecidableEq, Repr

/-- An element of `BusRouteResult.path`. -/
structure PathPoint where
  lat : Int
  lng : Int
  name : String
  sequence : Int
deriving DecidableEq, Repr

/-- `BusRouteResult` (lines 61–73).  `duration` is the total duration in minutes:
the source stores `"<N> mins"` and `findRoutes` reads it back with `parseInt`,
which is the identity on the integer produced here.  `total_distance` is in
metres. -/
structure BusRouteResult where
  route_name : String
  start_stop : String
  end_stop : String
  departure_time : Int
  arrival_time : Int
  duration : Int
  stops_count : Int
  fare : Int
  path : List PathPoint
  segments : List RouteSegment
  total_distance : Int
deriving DecidableEq, Repr

/-- Order on results by total duration (`findRoutes`'s final sort). -/
def durLE (a b : BusRouteResult) : Prop := a.duration ≤ b.duration

instance : DecidableRel durLE := fun a b => Int.decLe a.duration b.duration

instance : IsTotal BusRouteResult durLE := ⟨fun a b => Int.le_total a.duration b.duration⟩

instance : IsTrans BusRouteResult durLE := ⟨fun _ _ _ h1 h2 => le_trans h1 h2⟩

/-- `extractRouteStops` (lines 759–774): stop times of the trip with sequence in
`[startSeq, endSeq]`, sorted by sequence, resolved against the stop table
(unresolvable stops are dropped, as in the source's `filter(s !== null)`). -/
def extractRouteStops (g : BusData) (tripStopTimes : List StopTime) (startSeq endSeq : Int) :
    List RouteStopOut :=
  (List.insertionSort seqLE
      (tripStopTimes.filter
        (fun st => decide (startSeq ≤ st.stop_sequence) && decide (st.stop_sequence ≤ endSeq)))).filterMap
    (fun st =>
      match mget st.stop_id g.stops with
      | some s => some ⟨s.stop_lat, s.stop_lon, s.stop_name, st.stop_sequence, st.arrival_time⟩
      | none => none)

/-- `trip.trip_headsign || 'Destination'` (JavaScript `||`: `undefined` and the
empty string both fall through). -/
def headsignOr (h : Option String) : String :=
  match h with
  | some s => if s == "" then "Destination" else s
  | none => "Destination"

/-- `route.route_short_name || route.route_long_name`. -/
def routeDisplayName (route : Route) : String :=
  if route.route_short_name == "" then route.route_long_name else route.route_short_name

section WithDistance

variable (calculateDistance : Int → Int → Int → Int → Int)

/-- `calculateRouteDistance` (lines 284–290): sum of `calculateDistance` hops over
consecutive points. -/
def calculateRouteDistance : List (Int × Int) → Int
  | [] => 0
  | [_] => 0
  | a :: b :: rest => calculateDistance a.1 a.2 b.1 b.2 + calculateRouteDistance (b :: rest)

/-- `findNearbyStopsWithDistance` (lines 776–787): all stops within
`maxDistanceM` of `location`, nearest first, at most `limit` (call sites use
`limit = 20`, `maxDistanceM = 2000`, i.e. the source's `2.0` km). -/
def findNearbyStopsWithDistance (g : BusData) (location : GeoLocation)
    (limit : Nat) (maxDistanceM : Int) : List NearStop :=
  (List.insertionSort nearLE
      (((g.stops.map (·.2)).map
          (fun stop =>
            ({ stop := stop,
               distance := calculateDistance location.lat location.lng stop.stop_lat stop.stop_lon } : NearStop))).filter
        (fun item => decide (item.distance ≤ maxDistanceM)))).take limit

end WithDistance

/-- `buildRouteResult` (lines 556–638): assemble a direct Walk→Bus→Walk itinerary.
Note the bus distance: `routeStops.length * 0.5` km (500 m per included stop), an
approximation the source uses because `shape_dist_traveled` is missing — not a
great-circle sum. -/
def buildRouteResult (g : BusData) (pickup drop : GeoLocation)
    (pStopItem dStopItem : NearStop) (trip : Trip)
    (pSt dSt : StopTime) (tripStopTimes : List StopTime) (routeName : String) :
    BusRouteResult :=
  let busDurationMins := calculateDurationInMinutes pSt.departure_time dSt.arrival_time
  let walk1DistM := pStopItem.distance
  let walk1TimeMins := cdiv walk1DistM 80
  let walk2DistM := dStopItem.distance
  let walk2TimeMins := cdiv walk2DistM 80
  let routeStops := extractRouteStops g tripStopTimes pSt.stop_sequence dSt.stop_sequence
  let busDistM := (routeStops.length : Int) * 500
  let seg1 : RouteSegment :=
    { type := .walk,
      startPoint := ⟨pickup.lat, pickup.lng, "Your Location"⟩,
      endPoint := ⟨pStopItem.stop.stop_lat, pStopItem.stop.stop_lon, pStopItem.stop.stop_name⟩,
      distance := walk1DistM, duration := walk1TimeMins,
      instruction := "Walk to " ++ pStopItem.stop.stop_name,
      path := [(pickup.lat, pickup.lng), (pStopItem.stop.stop_lat, pStopItem.stop.stop_lon)],
      stops := none, color := "#94a3b8" }
  let seg2 : RouteSegment :=
    { type := .bus,
      startPoint := ⟨pStopItem.stop.stop_lat, pStopItem.stop.stop_lon, pStopItem.stop.stop_name⟩,
      endPoint := ⟨dStopItem.stop.stop_lat, dStopItem.stop.stop_lon, dStopItem.stop.stop_name⟩,
      distance := busDistM, duration := busDurationMins,
      instruction := "Take bus " ++ routeName ++ " towards " ++ headsignOr trip.trip_headsign,
      path := routeStops.map (fun s => (s.lat, s.lng)),
      stops := some routeStops, color := "#f97316" }
  let seg3 : RouteSegment :=
    { type := .walk,
      startPoint := ⟨dStopItem.stop.stop_lat, dStopItem.stop.stop_lon, dStopItem.stop.stop_name⟩,
      endPoint := ⟨drop.lat, drop.lng, "Destination"⟩,
      distance := walk2DistM, duration := walk2TimeMins,
      instruction := "Walk to Destination",
      path := [(dStopItem.stop.stop_lat, dStopItem.stop.stop_lon), (drop.lat, drop.lng)],
      stops := none, color := "#94a3b8" }
  { route_name := routeName,
    start_stop := pStopItem.stop.stop_name,
    end_stop := dStopItem.stop.stop_name,
    departure_time := pSt.departure_time,
    arrival_time := dSt.arrival_time,
    duration := walk1TimeMins + busDurationMins + walk2TimeMins,
    stops_count := (routeStops.length : Int),
    fare := calculateBusFare busDistM,
    path := routeStops.map (fun s => ⟨s.lat, s.lng, s.name, s.sequence⟩),
    segments := [seg1, seg2, seg3],
    total_distance := walk1DistM + walk2DistM + busDistM }

/-- `buildTransferRouteResult` (lines 640–757): assemble a
Walk→Bus→Wait→Bus→Walk itinerary; `throw new Error("Transfer stop missing")`
when `transferStop` is `undefined` is the `.error` branch.  Both bus legs use the
real great-circle sum `calculateRouteDistance`. -/
def buildTransferRouteResult (calculateDistance : Int → Int → Int → Int → Int)
    (g : BusData) (pickup drop : GeoLocation)
    (pStopItem dStopItem : NearStop)
    (trip1 : Trip) (route1 : Route) (trip2 : Trip) (route2 : Route)
    (pSt tSt1 tSt2 dSt : StopTime)
    (trip1Stops trip2Stops : List StopTime)
    (transferStop? : Option Stop) : Except String BusRouteResult :=
  match transferStop? with
  | none => .error "Transfer stop missing"
  | some transferStop =>
    let routeName1 := routeDisplayName route1
    let routeName2 := routeDisplayName route2
    let leg1Stops := extractRouteStops g trip1Stops pSt.stop_sequence tSt1.stop_sequence
    let leg2Stops := extractRouteStops g trip2Stops tSt2.stop_sequence dSt.stop_sequence
    let dur1 := calculateDurationInMinutes pSt.departure_time tSt1.arrival_time
    let transferWait := calculateDurationInMinutes tSt1.arrival_time tSt2.departure_time
    let dur2 := calculateDurationInMinutes tSt2.departure_time dSt.arrival_time
    let walk1DistM := pStopItem.distance
    let walk1Time := cdiv walk1DistM 80
    let walk2DistM := dStopItem.distance
    let walk2Time := cdiv walk2DistM 80
    let leg1DistM := calculateRouteDistance calculateDistance (leg1Stops.map (fun s => (s.lat, s.lng)))
    let leg2DistM := calculateRouteDistance calculateDistance (leg2Stops.map (fun s => (s.lat, s.lng)))
    let seg1 : RouteSegment :=
      { type := .walk,
        startPoint := ⟨pickup.lat, pickup.lng, "Your Location"⟩,
        endPoint := ⟨pStopItem.stop.stop_lat, pStopItem.stop.stop_lon, pStopItem.stop.stop_name⟩,
        distance := walk1DistM, duration := walk1Time,
        instruction := "Walk to " ++ pStopItem.stop.stop_name,
        path := [(pickup.lat, pickup.lng), (pStopItem.stop.stop_lat, pStopItem.stop.stop_lon)],
        stops := none, color := "#94a3b8" }
    let seg2 : RouteSegment :=
      { type := .bus,
        startPoint := ⟨pStopItem.stop.stop_lat, pStopItem.stop.stop_lon, pStopItem.stop.stop_name⟩,
        endPoint := ⟨transferStop.stop_lat, transferStop.stop_lon, transferStop.stop_name⟩,
        distance := leg1DistM, duration := dur1,
        instruction := "Bus " ++ routeName1 ++ " to " ++ transferStop.stop_name,
        path := leg1Stops.map (fun s => (s.lat, s.lng)),
        stops := some leg1Stops, color := "#f97316" }
    let seg3 : RouteSegment :=
      { type := .walk,
        startPoint := ⟨transferStop.stop_lat, transferStop.stop_lon, transferStop.stop_name⟩,
        endPoint := ⟨transferStop.stop_lat, transferStop.stop_lon, transferStop.stop_name⟩,
        distance := 0, duration := transferWait,
        instruction := "Transfer at " ++ transferStop.stop_name,
        path := [], stops := none, color := "#94a3b8" }
    let seg4 : RouteSegment :=
      { type := .bus,
        startPoint := ⟨transferStop.stop_lat, transferStop.stop_lon, transferStop.stop_name⟩,
        endPoint := ⟨dStopItem.stop.stop_lat, dStopItem.stop.stop_lon, dStopItem.stop.stop_name⟩,
        distance := leg2DistM, duration := dur2,
        instruction := "Bus " ++ routeName2 ++ " to " ++ dStopItem.stop.stop_name,
        path := leg2Stops.map (fun s => (s.lat, s.lng)),
        stops := some leg2Stops, color := "#ea580c" }
    let seg5 : RouteSegment :=
      { type := .walk,
        startPoint := ⟨dStopItem.stop.stop_lat, dStopItem.stop.stop_lon, dStopItem.stop.stop_name⟩,
        endPoint := ⟨drop.lat, drop.lng, "Destination"⟩,
        distance := walk2DistM, duration := walk2Time,
        instruction := "Walk to Destination",
        path := [(dStopItem.stop.stop_lat, dStopItem.stop.stop_lon), (drop.lat, drop.lng)],
        stops := none, color := "#94a3b8" }
    .ok
      { route_name := routeName1 ++ " + " ++ routeName2,
        start_stop := pStopItem.stop.stop_name,
        end_stop := dStopItem.stop.stop_name,
        departure_time := pSt.departure_time,
        arrival_time := dSt.arrival_time,
        duration := walk1Time + dur1 + transferWait + dur2 + walk2Time,
        stops_count := (leg1Stops.length : Int) + (leg2Stops.length : Int),
        fare := calculateBusFare leg1DistM + calculateBusFare leg2DistM,
        path := leg1Stops.map (fun s => ⟨s.lat, s.lng, s.name, s.sequence⟩)
          ++ leg2Stops.map (fun s => ⟨s.lat, s.lng, s.name, s.sequence⟩),
        segments := [seg1, seg2, seg3, seg4, seg5],
        total_distance := walk1DistM + walk2DistM + leg1DistM + leg2DistM }

/-! ## Direct search (`findDirectRoutes`, lines 292–370) -/

/-- Shared loop state for both searches: accumulated results, the `seenRoutes`
de-duplication set, and whether an early exit (`break`/`return` at 5 results) has
been taken. -/
structure SearchState where
  results : List BusRouteResult
  seen : List String
  done : Bool
deriving DecidableEq, Repr

/-- Lines 305–323: `routeId → [{stop, distance}, …]` over all candidates serving
the route (the `pRoutesMap`/`dRoutesMap` of the direct search). -/
def buildRouteCandidateMap (g : BusData) (items : List NearStop) :
    List (String × List NearStop) :=
  items.foldl
    (fun acc p =>
      match mget p.stop.stop_id g.routesByStop with
      | none => acc
      | some routeIds => routeIds.foldl (fun acc2 rId => mpush rId p acc2) acc)
    []

/-- Innermost direct loop body (lines 337–363): one `(pStop, dStop)` pair on
`routeId`.  There is no early exit here — the `>= 5` check happens only after a
full `dStop` pass. -/
def directInnerD (g : BusData) (weekday : Fin 7) (pickup drop : GeoLocation)
    (routeId : String) (routeStops : List String) (pStopItem : NearStop)
    (s : SearchState) (dStopItem : NearStop) : SearchState :=
  if indexOfOr routeStops pStopItem.stop.stop_id ≠ -1 ∧
      indexOfOr routeStops dStopItem.stop.stop_id ≠ -1 ∧
      indexOfOr routeStops pStopItem.stop.stop_id < indexOfOr routeStops dStopItem.stop.stop_id then
    match mget routeId g.routes with
    | none => s
    | some route =>
      match findTripForLeg g weekday routeId pStopItem.stop.stop_id dStopItem.stop.stop_id none with
      | none => s
      | some tripInfo =>
        if s.seen.contains (routeDisplayName route ++ "-" ++ pStopItem.stop.stop_name ++ "-" ++
            dStopItem.stop.stop_name) then s
        else
          { results := s.results ++
              [buildRouteResult g pickup drop pStopItem dStopItem tripInfo.trip
                tripInfo.start tripInfo.endSt tripInfo.stops (routeDisplayName route)],
            seen := s.seen ++ [routeDisplayName route ++ "-" ++ pStopItem.stop.stop_name ++ "-" ++
              dStopItem.stop.stop_name],
            done := s.done }
  else s

/-- One `pStop` pass (lines 336–365): run all `dStop`s, then
`if (results.length >= 5) break`. -/
def directInnerP (g : BusData) (weekday : Fin 7) (pickup drop : GeoLocation)
    (routeId : String) (routeStops : List String) (dItems : List NearStop)
    (s : SearchState) (pStopItem : NearStop) : SearchState :=
  if s.done then s
  else
    let s' := dItems.foldl (directInnerD g weekday pickup drop routeId routeStops pStopItem) s
    { s' with done := decide (5 ≤ s'.results.length) }

/-- One common route (lines 329–367): look up the representative stop list, run all
`pStop`s, then `if (results.length >= 5) break`. -/
def directRouteStep (g : BusData) (weekday : Fin 7) (pickup drop : GeoLocation)
    (pMap dMap : List (String × List NearStop))
    (s : SearchState) (routeId : String) : SearchState :=
  if s.done then s
  else
    match mget routeId g.stopsByRoute with
    | none => s
    | some routeStops =>
      let potentialPStops := (mget routeId pMap).getD []
      let potentialDStops := (mget routeId dMap).getD []
      let s' := potentialPStops.foldl
        (directInnerP g weekday pickup drop routeId routeStops potentialDStops) s
      { s' with done := decide (5 ≤ s'.results.length) }

/-- `findDirectRoutes` (lines 292–370).  The source binds the two candidate maps
and their common route ids with `const`; they are repeated here (pure values). -/
def findDirectRoutes (g : BusData) (weekday : Fin 7) (pickup drop : GeoLocation)
    (pStops dStops : List NearStop) : List BusRouteResult :=
  ((((buildRouteCandidateMap g pStops).map (·.1)).filter
        (fun rId => (mget rId (buildRouteCandidateMap g dStops)).isSome)).foldl
      (directRouteStep g weekday pickup drop (buildRouteCandidateMap g pStops)
        (buildRouteCandidateMap g dStops))
      ⟨[], [], false⟩).results

/-! ## Transfer search (`findTransferRoutes`, lines 372–486) -/

/-- Lines 384–396: `routeId → first-seen {stop, distance}` over the top
candidates (first writer wins). -/
def buildSingleRouteMap (g : BusData) (items : List NearStop) : List (String × NearStop) :=
  items.foldl
    (fun acc p =>
      match mget p.stop.stop_id g.routesByStop with
      | none => acc
      | some routeIds => routeIds.foldl (fun acc2 rId => msetIfAbsent rId p acc2) acc)
    []

/-- Lines 403–412: `stopId → [dropRouteId, …]` over all stops of drop-side routes. -/
def buildStopsToDropRoutes (g : BusData) (dRouteIds : List String) :
    List (String × List String) :=
  dRouteIds.foldl
    (fun acc rId =>
      match mget rId g.stopsByRoute with
      | none => acc
      | some stops => stops.foldl (fun acc2 sId => mpush sId rId acc2) acc)
    []

/-- Innermost transfer loop body (lines 428–479): one candidate drop route at a
fixed transfer stop.  The source's `this.routes.get(...)!` dereference of a
missing route would raise a `TypeError` inside the builder; that is the second
`.error` branch.  `return results` at 5 accepted transfers sets `done`. -/
def transferStepD (calculateDistance : Int → Int → Int → Int → Int) (g : BusData)
    (weekday : Fin 7) (pickup drop : GeoLocation) (pStopItem : NearStop)
    (pRouteId transferStopId : String) (dRoutesMap : List (String × NearStop))
    (s : SearchState) (dRouteId : String) : Except String SearchState :=
  if s.done then .ok s
  else
    match mget dRouteId dRoutesMap with
    | none => .ok s
    | some dStopItem =>
      match mget dRouteId g.stopsByRoute with
      | none => .ok s
      | some dRouteStops =>
        if indexOfOr dRouteStops transferStopId ≠ -1 ∧
            indexOfOr dRouteStops dStopItem.stop.stop_id ≠ -1 ∧
            indexOfOr dRouteStops transferStopId < indexOfOr dRouteStops dStopItem.stop.stop_id then
          if s.seen.contains (pRouteId ++ "-" ++ transferStopId ++ "-" ++ dRouteId) then .ok s
          else
            match mget transferStopId g.stops with
            | none => .ok s
            | some transferStop =>
              match findTripForLeg g weekday pRouteId pStopItem.stop.stop_id transferStopId none with
              | none => .ok s
              | some trip1Info =>
                match findTripForLeg g weekday dRouteId transferStopId dStopItem.stop.stop_id
                    (some trip1Info.endSt.arrival_time) with
                | none => .ok s
                | some trip2Info =>
                  -- `waitTime = (dep2Sec - arr1Sec) / 60; waitTime >= 0 && waitTime < 45`
                  if 0 ≤ trip2Info.start.departure_time - trip1Info.endSt.arrival_time ∧
                      trip2Info.start.departure_time - trip1Info.endSt.arrival_time < 45 * 60 then
                    match mget pRouteId g.routes, mget dRouteId g.routes with
                    | some route1, some route2 =>
                      (buildTransferRouteResult calculateDistance g pickup drop pStopItem dStopItem
                          trip1Info.trip route1 trip2Info.trip route2
                          trip1Info.start trip1Info.endSt trip2Info.start trip2Info.endSt
                          trip1Info.stops trip2Info.stops (some transferStop)).bind
                        (fun r => .ok
                          { results := s.results ++ [r],
                            seen := s.seen ++ [pRouteId ++ "-" ++ transferStopId ++ "-" ++ dRouteId],
                            done := decide (5 ≤ s.results.length + 1) })
                    | _, _ => .error "TypeError: route of transfer leg missing"
                  else .ok s
        else .ok s

/-- One transfer stop (lines 423–481): consult `stopsToDropRoutes` and try each
connecting drop route. -/
def transferStepI (calculateDistance : Int → Int → Int → Int → Int) (g : BusData)
    (weekday : Fin 7) (pickup drop : GeoLocation) (pStopItem : NearStop) (pRouteId : String)
    (stopsToDropRoutes : List (String × List String)) (dRoutesMap : List (String × NearStop))
    (s : SearchState) (transferStopId : String) : Except String SearchState :=
  if s.done then .ok s
  else
    match mget transferStopId stopsToDropRoutes with
    | none => .ok s
    | some connectingDropRoutes =>
      List.foldlM
        (transferStepD calculateDistance g weekday pickup drop pStopItem pRouteId transferStopId
          dRoutesMap)
        s connectingDropRoutes

/-- One pickup route (lines 414–483): scan the representative stop list forward
from the boarding stop's index. -/
def transferStepP (calculateDistance : Int → Int → Int → Int → Int) (g : BusData)
    (weekday : Fin 7) (pickup drop : GeoLocation)
    (pRoutesMap : List (String × NearStop)) (dRoutesMap : List (String × NearStop))
    (stopsToDropRoutes : List (String × List String))
    (s : SearchState) (pRouteId : String) : Except String SearchState :=
  if s.done then .ok s
  else
    match mget pRouteId g.stopsByRoute with
    | none => .ok s
    | some pRouteStops =>
      match mget pRouteId pRoutesMap with
      | none => .ok s
      | some pStopItem =>
        match pRouteStops.findIdx? (fun st => st == pStopItem.stop.stop_id) with
        | none => .ok s
        | some pStartIndex =>
          List.foldlM
            (transferStepI calculateDistance g weekday pickup drop pStopItem pRouteId
              stopsToDropRoutes dRoutesMap)
            s (pRouteStops.drop (pStartIndex + 1))

/-- `findTransferRoutes` (lines 372–486).  The source binds the maps with
`const`; they are repeated here (pure values). -/
def findTransferRoutes (calculateDistance : Int → Int → Int → Int → Int) (g : BusData)
    (weekday : Fin 7) (pickup drop : GeoLocation) (pStops dStops : List NearStop) :
    Except String (List BusRouteResult) :=
  (List.foldlM
      (transferStepP calculateDistance g weekday pickup drop
        (buildSingleRouteMap g (pStops.take 5)) (buildSingleRouteMap g (dStops.take 5))
        (buildStopsToDropRoutes g ((buildSingleRouteMap g (dStops.take 5)).map (·.1))))
      ⟨[], [], false⟩ ((buildSingleRouteMap g (pStops.take 5)).map (·.1))).map (·.results)

/-- Lines 243–255 of `findRoutes`: concatenate direct and transfer results, drop
durations of 240 minutes or more, sort ascending by duration, keep the first 5. -/
def rankAndTake (directRoutes transferRoutes : List BusRouteResult) : List BusRouteResult :=
  (List.insertionSort durLE
      ((directRoutes ++ transferRoutes).filter (fun r => decide (r.duration < 240)))).take 5

/-- `findRoutes` (lines 210–256): the public planning operation.  `weekday` is the
wall-clock weekday at call time (used only for calendar filtering); the search has
no dependence on the wall-clock time of day.  The source binds the two nearby-stop
lists and the direct results once with `const`; they are repeated here (same
values — all the functions are pure). -/
def findRoutes (calculateDistance : Int → Int → Int → Int → Int) (g : BusData)
    (weekday : Fin 7) (pickup drop : GeoLocation) : Except String (List BusRouteResult) :=
  if g.isLoaded = false then .ok []
  else if (findNearbyStopsWithDistance calculateDistance g pickup 20 2000).isEmpty ||
      (findNearbyStopsWithDistance calculateDistance g drop 20 2000).isEmpty then .ok []
  else
    (if (findDirectRoutes g weekday pickup drop
          (findNearbyStopsWithDistance calculateDistance g pickup 20 2000)
          (findNearbyStopsWithDistance calculateDistance g drop 20 2000)).length < 5 then
        findTransferRoutes calculateDistance g weekday pickup drop
          (findNearbyStopsWithDistance calculateDistance g pickup 20 2000)
          (findNearbyStopsWithDistance calculateDistance g drop 20 2000)
      else .ok []).map
      (rankAndTake
        (findDirectRoutes g weekday pickup drop
          (findNearbyStopsWithDistance calculateDistance g pickup 20 2000)
          (findNearbyStopsWithDistance calculateDistance g drop 20 2000)))

/-! ## Tariff formula (`utils/fare-calculator.ts`, lines 18–35)

`calculateFare` computes `Math.round(Math.max((base + distanceKm * perKm) * surge,
min))` with `surge` uniform in `[1.0, 1.2)`.  Embedding: distance in metres, so
`base*1000 + distanceM * perKm` is the fare in milli-rupees; `surge` is passed in
per-mille (`1000 ≤ surge < 1200`, one fresh draw per call as in the source);
the product is in micro-rupees and `Math.round` is `⌊x + 1/2⌋` on it. -/

inductive VehicleType where
  | bike
  | auto
  | mini
  | sedan
  | suv
deriving DecidableEq, Repr

structure TariffRate where
  base : Int
  perKm : Int
  minFare : Int
deriving DecidableEq, Repr

/-- The `rates` table of `calculateFare`. -/
def rates : VehicleType → TariffRate
  | .bike => ⟨20, 8, 20⟩
  | .auto => ⟨30, 15, 30⟩
  | .mini => ⟨50, 18, 50⟩
  | .sedan => ⟨60, 22, 60⟩
  | .suv => ⟨80, 30, 80⟩

/-- `calculateFare(distanceKm, type)` with the surge draw made explicit
(per-mille).  Result in whole rupees. -/
def calculateFare (surge : Int) (distanceM : Int) (t : VehicleType) : Int :=
  let rate := rates t
  let fareMilli := rate.base * 1000 + distanceM * rate.perKm
  Int.fdiv (max (fareMilli * surge) (rate.minFare * 1000000) + 500000) 1000000

/-- `FareEstimate` of `interfaces/types.ts` (lines 7–16); `price` in whole rupees,
`timestamp` in epoch milliseconds. -/
structure FareEstimate where
  platform : String
  vehicleType : String
  price : Int
  currency : String
  eta : Option String
  confidence : String
  source : String
  timestamp : Int
deriving DecidableEq, Repr

/-! ## Quote producers (`adapters/*.adapter.ts`)

Each adapter is an `async` method whose body is one big `try { … } catch { return
mock } finally { close }`.  The environment-dependent part (browser automation) is
an oracle: a `…Outcome` value says how far the scrape got and what it yielded.
Every `await` inside the `try` can throw; a throw is the `.error` of the body
function, and the adapter wraps the body with the `catch`.  Resource cleanup in
`finally` (page/context close) is modelled as non-throwing.  Scraped text is
modelled post-parsing (`ScrapedRow.price` is the parsed price; rows whose price
failed to parse are represented with `price ≤ 0`, which both normalizers drop). -/

structure ScrapedRow where
  name : String
  price : Int
  eta : String
deriving DecidableEq, Repr

/-- The per-quote surge draws: the source calls `calculateFare` once per vehicle
class, each with a fresh `Math.random()`. -/
def SurgeDraw : Type := VehicleType → Int

/-- `RapidoAdapter.getMockData` (lines 54–79): fixed menu `bike, auto`. -/
def rapidoMockData (calculateDistance : Int → Int → Int → Int → Int) (surge : SurgeDraw)
    (now : Int) (pickup drop : GeoLocation) : List FareEstimate :=
  let distance := calculateDistance pickup.lat pickup.lng drop.lat drop.lng
  [{ platform := "rapido", vehicleType := "bike",
     price := calculateFare (surge .bike) distance .bike, currency := "INR",
     eta := some "3 mins", confidence := "medium", source := "estimate", timestamp := now },
   { platform := "rapido", vehicleType := "auto",
     price := calculateFare (surge .auto) distance .auto, currency := "INR",
     eta := some "7 mins", confidence := "medium", source := "estimate", timestamp := now }]

/-- `OlaAdapter.getMockData` (lines 202–238): fixed menu `mini, prime_sedan
(sedan tariff), auto`. -/
def olaMockData (calculateDistance : Int → Int → Int → Int → Int) (surge : SurgeDraw)
    (now : Int) (pickup drop : GeoLocation) : List FareEstimate :=
  let distance := calculateDistance pickup.lat pickup.lng drop.lat drop.lng
  [{ platform := "ola", vehicleType := "mini",
     price := calculateFare (surge .mini) distance .mini, currency := "INR",
     eta := some "4 mins", confidence := "medium", source := "estimate", timestamp := now },
   { platform := "ola", vehicleType := "prime_sedan",
     price := calculateFare (surge .sedan) distance .sedan, currency := "INR",
     eta := some "6 mins", confidence := "medium", source := "estimate", timestamp := now },
   { platform := "ola", vehicleType := "auto",
     price := calculateFare (surge .auto) distance .auto, currency := "INR",
     eta := some "2 mins", confidence := "medium", source := "estimate", timestamp := now }]

/-- `UberAdapter.getMockData` (lines 197–233): fixed menu `UberGo (mini),
UberPremier (sedan), UberAuto (auto)`. -/
def uberMockData (calculateDistance : Int → Int → Int → Int → Int) (surge : SurgeDraw)
    (now : Int) (pickup drop : GeoLocation) : List FareEstimate :=
  let distance := calculateDistance pickup.lat pickup.lng drop.lat drop.lng
  [{ platform := "uber", vehicleType := "UberGo",
     price := calculateFare (surge .mini) distance .mini, currency := "INR",
     eta := some "5 mins", confidence := "medium", source := "estimate", timestamp := now },
   { platform := "uber", vehicleType := "UberPremier",
     price := calculateFare (surge .sedan) distance .sedan, currency := "INR",
     eta := some "8 mins", confidence := "medium", source := "estimate", timestamp := now },
   { platform := "uber", vehicleType := "UberAuto",
     price := calculateFare (surge .auto) distance .auto, currency := "INR",
     eta := some "3 mins", confidence := "medium", source := "estimate", timestamp := now }]

/-- How far the Rapido scrape got (lines 14–44). -/
inductive RapidoOutcome where
  | pageCrash
  | navFail
  | visCrash
  | noWidget
  | widgetVisible
deriving DecidableEq, Repr

/-- The `try` block of `RapidoAdapter.getFareEstimate`: every branch, including the
"success" one, returns the mock menu (the web flow is a template; lines 19–43). -/
def rapidoTryBody (calculateDistance : Int → Int → Int → Int → Int) (surge : SurgeDraw)
    (now : Int) (pickup drop : GeoLocation) : RapidoOutcome → Except String (List FareEstimate)
  | .pageCrash => .error "getNewPage failed"
  | .navFail => .ok (rapidoMockData calculateDistance surge now pickup drop)
  | .visCrash => .error "isVisible failed"
  | .noWidget => .ok (rapidoMockData calculateDistance surge now pickup drop)
  | .widgetVisible => .ok (rapidoMockData calculateDistance surge now pickup drop)

/-- `RapidoAdapter.getFareEstimate` (lines 9–52): the `catch` turns any thrown
error into the mock menu. -/
def rapidoGetFareEstimate (calculateDistance : Int → Int → Int → Int → Int) (surge : SurgeDraw)
    (now : Int) (pickup drop : GeoLocation) (o : RapidoOutcome) :
    Except String (List FareEstimate) :=
  match rapidoTryBody calculateDistance surge now pickup drop o with
  | .ok l => .ok l
  | .error _ => .ok (rapidoMockData calculateDistance surge now pickup drop)

/-- How far the Ola scrape got (lines 14–153). -/
inductive OlaOutcome where
  | pageCrash
  | loginPage
  | loginButton
  | noFareResponse
  | scraped (categories : List ScrapedRow)
deriving DecidableEq, Repr

/-- `OlaAdapter.normalizeResponse` (lines 156–200): one live/high quote per
category with positive parsed price; an empty `eta` becomes `"N/A"`. -/
def olaNormalizeResponse (now : Int) (categories : List ScrapedRow) : List FareEstimate :=
  (categories.filter (fun cat => decide (0 < cat.price))).map
    (fun cat =>
      { platform := "ola", vehicleType := cat.name, price := cat.price, currency := "INR",
        eta := some (if cat.eta == "" then "N/A" else cat.eta), confidence := "high",
        source := "live", timestamp := now })

/-- The `try` block of `OlaAdapter.getFareEstimate` (lines 14–145). -/
def olaTryBody (calculateDistance : Int → Int → Int → Int → Int) (surge : SurgeDraw)
    (now : Int) (pickup drop : GeoLocation) : OlaOutcome → Except String (List FareEstimate)
  | .pageCrash => .error "browser automation failed"
  | .loginPage => .ok (olaMockData calculateDistance surge now pickup drop)
  | .loginButton => .ok (olaMockData calculateDistance surge now pickup drop)
  | .noFareResponse => .ok (olaMockData calculateDistance surge now pickup drop)
  | .scraped categories =>
    let results := olaNormalizeResponse now categories
    if results.length = 0 then .ok (olaMockData calculateDistance surge now pickup drop)
    else .ok results

/-- `OlaAdapter.getFareEstimate` (lines 9–154). -/
def olaGetFareEstimate (calculateDistance : Int → Int → Int → Int → Int) (surge : SurgeDraw)
    (now : Int) (pickup drop : GeoLocation) (o : OlaOutcome) :
    Except String (List FareEstimate) :=
  match olaTryBody calculateDistance surge now pickup drop o with
  | .ok l => .ok l
  | .error _ => .ok (olaMockData calculateDistance surge now pickup drop)

/-- How far the Uber scrape got (lines 14–185). -/
inductive UberOutcome where
  | pageCrash
  | navFail
  | loginRedirect
  | noVehicleRows
  | scraped (rows : List ScrapedRow)
deriving DecidableEq, Repr

/-- The row-extraction loop of `UberAdapter` (lines 137–176): one live/high quote
per row with positive parsed price; an empty name becomes `"Standard"`, an empty
eta `"N/A"`. -/
def uberExtractEstimates (now : Int) (rows : List ScrapedRow) : List FareEstimate :=
  (rows.filter (fun row => decide (0 < row.price))).map
    (fun row =>
      { platform := "uber", vehicleType := if row.name == "" then "Standard" else row.name,
        price := row.price, currency := "INR",
        eta := some (if row.eta == "" then "N/A" else row.eta), confidence := "high",
        source := "live", timestamp := now })

/-- The `try` block of `UberAdapter.getFareEstimate` (lines 14–185). -/
def uberTryBody (calculateDistance : Int → Int → Int → Int → Int) (surge : SurgeDraw)
    (now : Int) (pickup drop : GeoLocation) : UberOutcome → Except String (List FareEstimate)
  | .pageCrash => .error "browser automation failed"
  | .navFail => .ok (uberMockData calculateDistance surge now pickup drop)
  | .loginRedirect => .ok (uberMockData calculateDistance surge now pickup drop)
  | .noVehicleRows => .ok (uberMockData calculateDistance surge now pickup drop)
  | .scraped rows =>
    let estimates := uberExtractEstimates now rows
    if estimates.length = 0 then .ok (uberMockData calculateDistance surge now pickup drop)
    else .ok estimates

/-- `UberAdapter.getFareEstimate` (lines 9–194). -/
def uberGetFareEstimate (calculateDistance : Int → Int → Int → Int → Int) (surge : SurgeDraw)
    (now : Int) (pickup drop : GeoLocation) (o : UberOutcome) :
    Except String (List FareEstimate) :=
  match uberTryBody calculateDistance surge now pickup drop o with
  | .ok l => .ok l
  | .error _ => .ok (uberMockData calculateDistance surge now pickup drop)

/-! ## Quote aggregator (`services/fare.service.ts`) -/

inductive Platform where
  | ola
  | rapido
  | uber
deriving DecidableEq, Repr

/-- The `FareService` constructor (lines 16–20) registers the adapters in this
fixed order. -/
def registeredAdapters : List Platform := [.ola, .rapido, .uber]

/-- The per-platform fallback menu (the vehicle classes of each adapter's
`getMockData`). -/
def platformMenu : Platform → List VehicleType
  | .ola => [.mini, .sedan, .auto]
  | .rapido => [.bike, .auto]
  | .uber => [.mini, .sedan, .auto]

/-- The mock-data builder of each adapter, indexed by platform. -/
def platformMockData (p : Platform) : (Int → Int → Int → Int → Int) → SurgeDraw → Int →
    GeoLocation → GeoLocation → List FareEstimate :=
  match p with
  | .ola => olaMockData
  | .rapido => rapidoMockData
  | .uber => uberMockData

structure CacheEntry where
  data : List FareEstimate
  timestamp : Int
deriving DecidableEq, Repr

/-- A cache key: the four coordinates rounded to 4 decimal places.  The source
builds the string `"pLat,pLng-dLat,dLng"` from `toFixed(4)` values; two keys are
equal exactly when the four rounded coordinates are, so the key is embedded as
that quadruple. -/
abbrev CacheKey := Int × Int × Int × Int

/-- `x.toFixed(4)` on a micro-degree coordinate: round half-up to units of
`10⁻⁴` degrees (100 micro-degrees). -/
def toFixed4 (x : Int) : Int := Int.fdiv (x + 50) 100

/-- `getCacheKey` (lines 56–63). -/
def getCacheKey (pickup drop : GeoLocation) : CacheKey :=
  (toFixed4 pickup.lat, toFixed4 pickup.lng, toFixed4 drop.lat, toFixed4 drop.lng)

/-- `Map.prototype.get` on the quote cache. -/
def cacheGet (k : CacheKey) : List (CacheKey × CacheEntry) → Option CacheEntry
  | [] => none
  | (k', v) :: rest => if k = k' then some v else cacheGet k rest

/-- `Map.prototype.set` on the quote cache. -/
def cacheSet (k : CacheKey) (v : CacheEntry) :
    List (CacheKey × CacheEntry) → List (CacheKey × CacheEntry)
  | [] => [(k, v)]
  | (k', v') :: rest => if k = k' then (k, v) :: rest else (k', v') :: cacheSet k v rest

/-- The cache-miss path of `getFareEstimates` (lines 33–53): each adapter promise
is recovered to `[]` by the attached `.catch` (so a rejecting adapter contributes
an empty sublist), the sublists are concatenated in adapter order, and the result
is stored only when non-empty.  `adapterResults` holds the settled outcomes of
the adapter promises in registration order. -/
def fetchFreshEstimates (cache : List (CacheKey × CacheEntry)) (now : Int)
    (adapterResults : List (Except String (List FareEstimate))) (cacheKey : CacheKey) :
    List FareEstimate × List (CacheKey × CacheEntry) :=
  let results := adapterResults.map
    (fun r => match r with
      | .ok l => l
      | .error _ => ([] : List FareEstimate))
  let flattenedResults := results.flatten
  let cache' :=
    if 0 < flattenedResults.length then cacheSet cacheKey ⟨flattenedResults, now⟩ cache
    else cache
  (flattenedResults, cache')

/-- `getFareEstimates` (lines 23–54): serve from the cache when an entry younger
than 30 s (30000 ms) exists, overwriting each quote's `source` with `"cached"`;
otherwise fan out, merge, and cache.  Returns the quote list and the cache after
the call. -/
def getFareEstimates (cache : List (CacheKey × CacheEntry)) (now : Int)
    (adapterResults : List (Except String (List FareEstimate)))
    (pickup drop : GeoLocation) :
    List FareEstimate × List (CacheKey × CacheEntry) :=
  let cacheKey := getCacheKey pickup drop
  match cacheGet cacheKey cache with
  | some cached =>
    if now - cached.timestamp < 30000 then
      (cached.data.map (fun item => { item with source := "cached" }), cache)
    else fetchFreshEstimates cache now adapterResults cacheKey
  | none => fetchFreshEstimates cache now adapterResults cacheKey

/-! ## Concrete feeds for witnesses and counterexamples

A small GTFS state in the shape of the spec's scenarios S1/S4: route `R1` calls
`S1 → S2 → S3` at 10:00/10:05/10:10 (trip `T1`), route `R2` calls `S3 → S4` at
10:15/10:25 (trip `T2`), no calendar rows (every service active).  Coordinates in
micro-degrees, times in seconds from midnight. -/

namespace Feeds

def s1 : Stop := ⟨"S1", "Stop One", 28700000, 77100000⟩

def s2 : Stop := ⟨"S2", "Stop Two", 28702000, 77102000⟩

def s3 : Stop := ⟨"S3", "Stop Three", 28705000, 77105000⟩

def s4 : Stop := ⟨"S4", "Stop Four", 28708000, 77108000⟩

def st1 : StopTime := ⟨"T1", 36000, 36000, "S1", 1⟩

def st2 : StopTime := ⟨"T1", 36300, 36300, "S2", 2⟩

def st3 : StopTime := ⟨"T1", 36600, 36600, "S3", 3⟩

def st4 : StopTime := ⟨"T2", 36900, 36900, "S3", 1⟩

def st5 : StopTime := ⟨"T2", 37500, 37500, "S4", 2⟩

def t1 : Trip := ⟨"R1", "SVC", "T1", some "Stop Three"⟩

def t2 : Trip := ⟨"R2", "SVC", "T2", some "Stop Four"⟩

def r1 : Route := ⟨"R1", "R1", "Route One", "3"⟩

def r2 : Route := ⟨"R2", "R2", "Route Two", "3"⟩

/-- Feed with both routes loaded. -/
def gB : BusData :=
  { stops := [("S1", s1), ("S2", s2), ("S3", s3), ("S4", s4)],
    stopTimesByStopId :=
      [("S1", [st1]), ("S2", [st2]), ("S3", [st3, st4]), ("S4", [st5])],
    stopTimesByTripId := [("T1", [st1, st2, st3]), ("T2", [st4, st5])],
    trips := [("T1", t1), ("T2", t2)],
    routes := [("R1", r1), ("R2", r2)],
    calendar := [],
    routesByStop := [("S1", ["R1"]), ("S2", ["R1"]), ("S3", ["R1", "R2"]), ("S4", ["R2"])],
    stopsByRoute := [("R1", ["S1", "S2", "S3"]), ("R2", ["S3", "S4"])],
    isLoaded := true }

/-- The same feed before `loadData` succeeded. -/
def gUnloaded : BusData :=
  { stops := [], stopTimesByStopId := [], stopTimesByTripId := [], trips := [],
    routes := [], calendar := [], routesByStop := [], stopsByRoute := [],
    isLoaded := false }

/-- A Monday. -/
def wd : Fin 7 := 1

/-- Constant-1-metre distance oracle (every stop is nearby). -/
def distOne : Int → Int → Int → Int → Int := fun _ _ _ _ => 1

/-- Constant-2-kilometre distance oracle (used to separate the two bus-distance
formulas). -/
def dist2000 : Int → Int → Int → Int → Int := fun _ _ _ _ => 2000

def pickupEx : GeoLocation := ⟨28700100, 77100100⟩

def dropEx : GeoLocation := ⟨28705100, 77105100⟩

def dropEx4 : GeoLocation := ⟨28708100, 77108100⟩

def nearS1 : NearStop := ⟨s1, 100⟩

def nearS3 : NearStop := ⟨s3, 100⟩

def nearS4 : NearStop := ⟨s4, 100⟩

example : findTripForLeg gB wd "R1" "S1" "S3" none = some ⟨t1, st1, st3, [st1, st2, st3]⟩ := by
  decide

example : findTripForLeg gB wd "R2" "S3" "S4" (some 36600) = some ⟨t2, st4, st5, [st4, st5]⟩ := by
  decide

example : (findDirectRoutes gB wd pickupEx dropEx [nearS1] [nearS3]).length = 1 := by decide

example :
    (findTransferRoutes distOne gB wd pickupEx dropEx4 [nearS1] [nearS4]).map List.length =
      Except.ok 1 := by decide

end Feeds

/-! ## Claim C1 — service-calendar activity -/

/-- A calendar row valid only in 2030, but marked for every weekday. -/
def calFuture : Calendar :=
  ⟨"SVC", "1", "1", "1", "1", "1", "1", "1", 20300101, 20301231⟩

/-- C1, counterexample.  The claim says a service with a calendar entry is treated
as active on date `D` exactly when `startDate ≤ D ≤ endDate` and `D`'s weekday is
marked.  On 2026-10-12 (a Monday, `weekday = 1`, date numeral `20261012`) the
entry `calFuture` is outside its `[20300101, 20301231]` range, so the claimed
predicate (`specServiceActive`) is `false` — yet `isServiceActive` returns `true`,
because the code consults only the weekday column and never compares the computed
`dateStr` against the range (lines 500–516: `dateStr` is built and then unused). -/
theorem c1_counterexample :
    isServiceActive [("SVC", calFuture)] 1 "SVC" = true ∧
      specServiceActive (some calFuture) 20261012 1 = false := by
  constructor
  · decide
  · decide

/-- C1, amended: trip selection treats a service with a calendar entry as active
exactly when the query weekday's column of the entry is `"1"` (the
`start_date`/`end_date` range is not consulted); a service without an entry is
always active. -/
theorem c1_amended_weekday_only (calendar : List (String × Calendar)) (weekday : Fin 7)
    (serviceId : String) :
    isServiceActive calendar weekday serviceId = true ↔
      (mget serviceId calendar = none ∨
        ∃ cal, mget serviceId calendar = some cal ∧ calDay cal weekday = "1") := by
  unfold isServiceActive
  cases h : mget serviceId calendar with
  | none => simp
  | some cal => simp [h]

/-! ## Claim C7 — aggregator cache hit -/

/-- C7.  If the aggregator is called twice with coordinate pairs that agree after
rounding each coordinate to 4 decimal places (equal `getCacheKey`s), the first
call left a non-empty quote list `L` stored under that key with its call
timestamp, and the second call happens less than 30 s later, then the second call
returns exactly `L` with every quote's `source` overwritten to `"cached"`, leaves
the cache untouched, and performs no adapter invocation — the conclusion holds
for *every* `res2`, i.e. the result does not depend on the adapters' outcomes at
all. -/
theorem c7_cached_within_30s
    (cache0 st1 : List (CacheKey × CacheEntry)) (t1 t2 : Int)
    (res1 : List (Except String (List FareEstimate)))
    (p1 d1 p2 d2 : GeoLocation) (L : List FareEstimate)
    (hkey : getCacheKey p1 d1 = getCacheKey p2 d2)
    (hcall1 : getFareEstimates cache0 t1 res1 p1 d1 = (L, st1))
    (hstored : cacheGet (getCacheKey p1 d1) st1 = some ⟨L, t1⟩)
    (hne : L ≠ [])
    (hfresh : t2 - t1 < 30000) :
    ∀ res2, getFareEstimates st1 t2 res2 p2 d2 =
      (L.map (fun item => { item with source := "cached" }), st1) := by
  intro res2
  unfold getFareEstimates
  rw [← hkey]
  simp [hstored, hfresh]

/-- A live quote used by the aggregator witnesses. -/
def q0 : FareEstimate :=
  ⟨"ola", "mini", 120, "INR", some "4 mins", "high", "live", 1000⟩

/-- C7 witness: a first call at `t = 1000` ms on the empty cache stores `[q0]`;
a second call at `t = 20000` ms with the same coordinates (and arbitrary adapter
outcomes — here `[]`) returns `[q0]` re-marked `"cached"` and leaves the cache
unchanged. -/
theorem c7_cached_within_30s_witness :
    getFareEstimates [(getCacheKey Feeds.pickupEx Feeds.dropEx, ⟨[q0], 1000⟩)] 20000 []
        Feeds.pickupEx Feeds.dropEx =
      ([{ q0 with source := "cached" }],
        [(getCacheKey Feeds.pickupEx Feeds.dropEx, ⟨[q0], 1000⟩)]) :=
  c7_cached_within_30s [] [(getCacheKey Feeds.pickupEx Feeds.dropEx, ⟨[q0], 1000⟩)]
    1000 20000 [Except.ok [q0]] Feeds.pickupEx Feeds.dropEx Feeds.pickupEx Feeds.dropEx [q0]
    rfl (by decide) (by decide) (by decide) (by decide) []

/-! ## Claim C10 — aggregator partial failure -/

/-- The effect of the `.catch(err => [])` attached to each adapter promise
(fare.service.ts lines 36–39). -/
def exceptRecover (r : Except String (List FareEstimate)) : List FareEstimate :=
  match r with
  | .ok l => l
  | .error _ => []

/-- The freshness test of the cache lookup (`cached && now - cached.timestamp <
30000`), as an `Option`: `none` when the call must take the fetch path. -/
def freshCacheEntry (cache : List (CacheKey × CacheEntry)) (k : CacheKey) (now : Int) :
    Option CacheEntry :=
  match cacheGet k cache with
  | some cached => if now - cached.timestamp < 30000 then some cached else none
  | none => none

/-- C10.  On a cache miss, if one adapter's promise rejects — whichever of the
three registered positions it occupies (registration order is Ola, Rapido, Uber,
from the constructor) — `getFareEstimates` still resolves: the combined list is
the per-adapter recovered sublists concatenated in registration order, the
rejecting position contributes the empty list (stated for each of the three
positions), and the combined list is written to the cache exactly when it is
non-empty. -/
theorem c10_reject_becomes_empty
    (cache : List (CacheKey × CacheEntry)) (now : Int) (pickup drop : GeoLocation)
    (r1 r2 r3 : Except String (List FareEstimate)) (err : String)
    (hmiss : freshCacheEntry cache (getCacheKey pickup drop) now = none)
    (hreject : r1 = .error err ∨ r2 = .error err ∨ r3 = .error err) :
    registeredAdapters = [Platform.ola, Platform.rapido, Platform.uber] ∧
    (getFareEstimates cache now [r1, r2, r3] pickup drop).1 =
      exceptRecover r1 ++ exceptRecover r2 ++ exceptRecover r3 ∧
    (∀ e, r1 = .error e →
      (getFareEstimates cache now [r1, r2, r3] pickup drop).1 =
        exceptRecover r2 ++ exceptRecover r3) ∧
    (∀ e, r2 = .error e →
      (getFareEstimates cache now [r1, r2, r3] pickup drop).1 =
        exceptRecover r1 ++ exceptRecover r3) ∧
    (∀ e, r3 = .error e →
      (getFareEstimates cache now [r1, r2, r3] pickup drop).1 =
        exceptRecover r1 ++ exceptRecover r2) ∧
    (exceptRecover r1 ++ exceptRecover r2 ++ exceptRecover r3 ≠ [] →
      (getFareEstimates cache now [r1, r2, r3] pickup drop).2 =
        cacheSet (getCacheKey pickup drop)
          ⟨exceptRecover r1 ++ exceptRecover r2 ++ exceptRecover r3, now⟩ cache) ∧
    (exceptRecover r1 ++ exceptRecover r2 ++ exceptRecover r3 = [] →
      (getFareEstimates cache now [r1, r2, r3] pickup drop).2 = cache) := by
  have hfetch : getFareEstimates cache now [r1, r2, r3] pickup drop =
      fetchFreshEstimates cache now [r1, r2, r3] (getCacheKey pickup drop) := by
    unfold getFareEstimates
    unfold freshCacheEntry at hmiss
    cases hget : cacheGet (getCacheKey pickup drop) cache with
    | none => simp [hget]
    | some cached =>
      rw [hget] at hmiss
      by_cases hf : now - cached.timestamp < 30000
      · simp [hf] at hmiss
      · simp [hget, hf]
  have hout : (getFareEstimates cache now [r1, r2, r3] pickup drop).1 =
      exceptRecover r1 ++ exceptRecover r2 ++ exceptRecover r3 := by
    rw [hfetch]
    unfold fetchFreshEstimates
    cases r1 <;> cases r2 <;> cases r3 <;> simp [exceptRecover]
  refine ⟨rfl, hout, ?_, ?_, ?_, ?_, ?_⟩
  · intro e h1
    rw [hout, h1]
    simp [exceptRecover]
  · intro e h2
    rw [hout, h2]
    simp [exceptRecover]
  · intro e h3
    rw [hout, h3]
    simp [exceptRecover]
  · intro hne
    rw [hfetch]
    unfold fetchFreshEstimates
    have hlen : 0 < (exceptRecover r1 ++ exceptRecover r2 ++ exceptRecover r3).length :=
      List.length_pos.mpr hne
    cases r1 <;> cases r2 <;> cases r3 <;> simp_all [exceptRecover]
  · intro hnil
    rw [hfetch]
    unfold fetchFreshEstimates
    cases r1 <;> cases r2 <;> cases r3 <;> simp_all [exceptRecover]

/-- C10 witness: the first-registered adapter (Ola) rejects while Rapido resolves
with `[q0]` and Uber resolves empty; the call still resolves, to `[q0]`. -/
theorem c10_reject_becomes_empty_witness :
    (getFareEstimates [] 0 [.error "upstream blocked", .ok [q0], .ok []]
        Feeds.pickupEx Feeds.dropEx).1 = [q0] := by
  have h := c10_reject_becomes_empty [] 0 Feeds.pickupEx Feeds.dropEx
    (.error "upstream blocked") (.ok [q0]) (.ok []) "upstream blocked" (by decide)
    (Or.inl rfl)
  simpa [exceptRecover] using h.2.2.1 "upstream blocked" rfl

/-! ## Claim C8 — producers never throw; fallback on failure -/

/-- Outcomes that count as an internal failure of the Rapido scrape (anything but
the widget actually being usable; the source returns the mock menu even then, but
the claim only constrains failures). -/
def rapidoOutcomeFails : RapidoOutcome → Bool
  | .pageCrash => true
  | .navFail => true
  | .visCrash => true
  | .noWidget => true
  | .widgetVisible => false

/-- Outcomes that count as an internal failure of the Ola scrape. -/
def olaOutcomeFails : OlaOutcome → Bool
  | .pageCrash => true
  | .loginPage => true
  | .loginButton => true
  | .noFareResponse => true
  | .scraped _ => false

/-- Outcomes that count as an internal failure of the Uber scrape. -/
def uberOutcomeFails : UberOutcome → Bool
  | .pageCrash => true
  | .navFail => true
  | .loginRedirect => true
  | .noVehicleRows => true
  | .scraped _ => false

/-- C8.  For each of the three adapters and every scrape outcome, `getFareEstimate`
resolves (is `.ok`; the `catch` absorbs every throw from the `try` body), and on
every internal failure it returns exactly that platform's fixed fallback menu:
one quote per vehicle class of `platformMenu`, priced by the tariff formula
`calculateFare` over the great-circle distance, every quote carrying
`source = "estimate"` and `confidence = "medium"`. -/
theorem c8_adapter_never_throws (calculateDistance : Int → Int → Int → Int → Int)
    (surge : SurgeDraw) (now : Int) (pickup drop : GeoLocation) :
    ((∀ o : OlaOutcome, ∃ l, olaGetFareEstimate calculateDistance surge now pickup drop o = .ok l) ∧
      ∀ o : OlaOutcome, olaOutcomeFails o = true →
        olaGetFareEstimate calculateDistance surge now pickup drop o =
          .ok (olaMockData calculateDistance surge now pickup drop)) ∧
    ((∀ o : RapidoOutcome, ∃ l,
        rapidoGetFareEstimate calculateDistance surge now pickup drop o = .ok l) ∧
      ∀ o : RapidoOutcome, rapidoOutcomeFails o = true →
        rapidoGetFareEstimate calculateDistance surge now pickup drop o =
          .ok (rapidoMockData calculateDistance surge now pickup drop)) ∧
    ((∀ o : UberOutcome, ∃ l,
        uberGetFareEstimate calculateDistance surge now pickup drop o = .ok l) ∧
      ∀ o : UberOutcome, uberOutcomeFails o = true →
        uberGetFareEstimate calculateDistance surge now pickup drop o =
          .ok (uberMockData calculateDistance surge now pickup drop)) ∧
    (∀ p : Platform,
      (platformMockData p calculateDistance surge now pickup drop).map (·.price) =
        (platformMenu p).map
          (fun c => calculateFare (surge c)
            (calculateDistance pickup.lat pickup.lng drop.lat drop.lng) c) ∧
      (platformMockData p calculateDistance surge now pickup drop).all
        (fun q => q.source == "estimate" && q.confidence == "medium") = true) := by
  refine ⟨⟨?_, ?_⟩, ⟨?_, ?_⟩, ⟨?_, ?_⟩, ?_⟩
  · intro o
    cases o <;>
      simp [olaGetFareEstimate, olaTryBody] <;>
      split <;> simp
  · intro o ho
    cases o <;> simp_all [olaGetFareEstimate, olaTryBody, olaOutcomeFails]
  · intro o
    cases o <;> simp [rapidoGetFareEstimate, rapidoTryBody]
  · intro o ho
    cases o <;> simp_all [rapidoGetFareEstimate, rapidoTryBody, rapidoOutcomeFails]
  · intro o
    cases o <;>
      simp [uberGetFareEstimate, uberTryBody] <;>
      split <;> simp
  · intro o ho
    cases o <;> simp_all [uberGetFareEstimate, uberTryBody, uberOutcomeFails]
  · intro p
    cases p <;>
      simp [platformMockData, platformMenu, olaMockData, rapidoMockData, uberMockData]

/-- A fixed surge draw (10.5 % on every class) for the C8 witness. -/
def surgeW : SurgeDraw := fun _ => 1105

/-- C8 witness: a crashed Ola scrape at concrete inputs yields exactly the Ola
fallback menu. -/
theorem c8_adapter_never_throws_witness :
    olaGetFareEstimate Feeds.distOne surgeW 5000 Feeds.pickupEx Feeds.dropEx .pageCrash =
      .ok (olaMockData Feeds.distOne surgeW 5000 Feeds.pickupEx Feeds.dropEx) :=
  (c8_adapter_never_throws Feeds.distOne surgeW 5000 Feeds.pickupEx Feeds.dropEx).1.2
    .pageCrash (by decide)

/-! ## Claim C5 — `findTripForLeg` board/alight invariant -/

/-- Index coherence of the loaded feed: every stop time reachable through
`stopTimesByStopId` also appears in its trip's `stopTimesByTripId` list.  Both
indices are filled from the same `stop_times.csv` rows (loadData lines 155–186),
so this holds of every loaded feed; it is the background data-model invariant
needed to relate the boarding stop time to the trip's stop list. -/
def tripIndexCoherent (g : BusData) : Bool :=
  g.stopTimesByStopId.all fun p =>
    p.2.all fun st =>
      match mget st.trip_id g.stopTimesByTripId with
      | some l => l.contains st
      | none => true

/-- The spec's §3 StopTime invariant, per trip list: along a trip, a stop time
with a smaller sequence departs no later than a larger-sequence stop time
arrives ("within a trip, sequence strictly increases and times are monotonic
non-decreasing"). -/
def timesMonotone (g : BusData) : Bool :=
  g.stopTimesByTripId.all fun p =>
    p.2.all fun a =>
      p.2.all fun b =>
        !(decide (a.stop_sequence < b.stop_sequence)) ||
          decide (a.departure_time ≤ b.arrival_time)

/-- Characterization of the candidate scan: a successful `findFirstValidLeg`
returns a boarding stop time from the scanned list, the stop list of its trip,
and the alight stop time found by `find?` in that list. -/
theorem findFirstValidLeg_spec (g : BusData) (endStopId : String) :
    ∀ (l : List StopTime) (t : TripLegInfo), findFirstValidLeg g endStopId l = some t →
      t.start ∈ l ∧
      mget t.start.trip_id g.stopTimesByTripId = some t.stops ∧
      t.stops.find? (legEndMatches endStopId t.start) = some t.endSt := by
  intro l
  induction l with
  | nil => intro t h; simp [findFirstValidLeg] at h
  | cons st rest ih =>
    intro t h
    rw [findFirstValidLeg] at h
    cases h1 : mget st.trip_id g.stopTimesByTripId with
    | none =>
      simp only [h1] at h
      obtain ⟨hm, h2, h3⟩ := ih t h
      exact ⟨List.mem_cons_of_mem _ hm, h2, h3⟩
    | some tripStops =>
      simp only [h1] at h
      cases h2 : tripStops.find? (legEndMatches endStopId st) with
      | none =>
        simp only [h2] at h
        obtain ⟨hm, h2', h3⟩ := ih t h
        exact ⟨List.mem_cons_of_mem _ hm, h2', h3⟩
      | some endSt =>
        simp only [h2] at h
        cases h3 : mget st.trip_id g.trips with
        | none =>
          simp only [h3] at h
          obtain ⟨hm, h2', h3'⟩ := ih t h
          exact ⟨List.mem_cons_of_mem _ hm, h2', h3'⟩
        | some trip =>
          simp only [h3, Option.some.injEq] at h
          cases h
          exact ⟨List.mem_cons_self _ _, h1, h2⟩

/-- A successful `findTripForLeg` boards at a stop time drawn from
`stopTimesByStopId[startStopId]`. -/
theorem findTripForLeg_start_mem (g : BusData) (weekday : Fin 7)
    (routeId startStopId endStopId : String) (after : Option Int) (t : TripLegInfo)
    (h : findTripForLeg g weekday routeId startStopId endStopId after = some t) :
    ∃ startStopTimes, mget startStopId g.stopTimesByStopId = some startStopTimes ∧
      t.start ∈ startStopTimes ∧
      mget t.start.trip_id g.stopTimesByTripId = some t.stops ∧
      t.stops.find? (legEndMatches endStopId t.start) = some t.endSt := by
  unfold findTripForLeg at h
  cases h0 : mget startStopId g.stopTimesByStopId with
  | none => rw [h0] at h; exact absurd h (by simp)
  | some startStopTimes =>
    rw [h0] at h
    refine ⟨startStopTimes, rfl, ?_⟩
    have hscan := findFirstValidLeg_spec g endStopId _ t h
    obtain ⟨hm, h2, h3⟩ := hscan
    refine ⟨?_, h2, h3⟩
    have hmem_sorted : t.start ∈
        List.insertionSort stLE (startStopTimes.filter (candidateFilter g weekday routeId)) := by
      cases after with
      | none => exact hm
      | some a => exact (List.mem_filter.mp hm).1
    have hperm := List.perm_insertionSort stLE
      (startStopTimes.filter (candidateFilter g weekday routeId))
    have hmem_cands := hperm.mem_iff.mp hmem_sorted
    exact (List.mem_filter.mp hmem_cands).1

/-- C5.  Every non-null `findTripForLeg` result alights strictly later in sequence
than it boards; and when the feed's indices are coherent and its per-trip times
satisfy the spec's monotonicity invariant, the alight arrival is at or after the
board departure. -/
theorem c5_board_before_alight (g : BusData) (weekday : Fin 7)
    (routeId startStopId endStopId : String) (after : Option Int) (t : TripLegInfo)
    (h : findTripForLeg g weekday routeId startStopId endStopId after = some t) :
    t.start.stop_sequence < t.endSt.stop_sequence ∧
      (tripIndexCoherent g = true → timesMonotone g = true →
        t.start.departure_time ≤ t.endSt.arrival_time) := by
  obtain ⟨startStopTimes, h0, hmem, hstops, hfind⟩ :=
    findTripForLeg_start_mem g weekday routeId startStopId endStopId after t h
  have hpred := List.find?_some hfind
  unfold legEndMatches at hpred
  have hseq : t.start.stop_sequence < t.endSt.stop_sequence := by
    have := (Bool.and_eq_true _ _).mp hpred
    simpa using this.2
  refine ⟨hseq, ?_⟩
  intro hco hmono
  have hstart_in_stops : t.start ∈ t.stops := by
    unfold tripIndexCoherent at hco
    have h1 := (List.all_eq_true.mp hco) _ (mget_mem h0)
    have h2 := (List.all_eq_true.mp h1) _ hmem
    rw [hstops] at h2
    simpa using h2
  have hend_in_stops : t.endSt ∈ t.stops := List.mem_of_find?_eq_some hfind
  unfold timesMonotone at hmono
  have h1 := (List.all_eq_true.mp hmono) _ (mget_mem hstops)
  have h2 := (List.all_eq_true.mp h1) _ hstart_in_stops
  have h3 := (List.all_eq_true.mp h2) _ hend_in_stops
  rcases Bool.or_eq_true _ _ |>.mp h3 with h4 | h4
  · rw [Bool.not_eq_true', decide_eq_false_iff_not] at h4
    exact absurd hseq h4
  · exact of_decide_eq_true h4

/-- C5 witness: on the concrete feed, `findTripForLeg` (with no bound) boards
`R1` at `S1` (sequence 1, departs 36000 s) and alights at `S3` (sequence 3,
arrives 36600 s); the feed is coherent and monotone, so both conclusions hold. -/
theorem c5_board_before_alight_witness :
    Feeds.st1.stop_sequence < Feeds.st3.stop_sequence ∧
      (tripIndexCoherent Feeds.gB = true → timesMonotone Feeds.gB = true →
        Feeds.st1.departure_time ≤ Feeds.st3.arrival_time) :=
  c5_board_before_alight Feeds.gB Feeds.wd "R1" "S1" "S3" none
    ⟨Feeds.t1, Feeds.st1, Feeds.st3, [Feeds.st1, Feeds.st2, Feeds.st3]⟩ (by decide)

/-! ## Claim C4 — at most five, sorted, under 240 minutes -/

/-- The three ranking properties hold of every `rankAndTake` output. -/
theorem rankAndTake_spec (dr tr : List BusRouteResult) :
    (rankAndTake dr tr).length ≤ 5 ∧ List.Sorted durLE (rankAndTake dr tr) ∧
      ∀ r ∈ rankAndTake dr tr, r.duration < 240 := by
  unfold rankAndTake
  refine ⟨List.length_take_le _ _, ?_, ?_⟩
  · exact List.Pairwise.sublist (List.take_sublist _ _) (List.sorted_insertionSort durLE _)
  · intro r hr
    have hr1 : r ∈ List.insertionSort durLE
        ((dr ++ tr).filter (fun r => decide (r.duration < 240))) :=
      List.mem_of_mem_take hr
    have hr2 := (List.perm_insertionSort durLE _).mem_iff.mp hr1
    exact of_decide_eq_true (List.mem_filter.mp hr2).2

/-- C4.  Whatever `findRoutes` returns is at most 5 itineraries, sorted
non-decreasingly by total duration, every one strictly under 240 minutes. -/
theorem c4_five_sorted_under240 (calculateDistance : Int → Int → Int → Int → Int)
    (g : BusData) (weekday : Fin 7) (pickup drop : GeoLocation) (l : List BusRouteResult)
    (h : findRoutes calculateDistance g weekday pickup drop = .ok l) :
    l.length ≤ 5 ∧ List.Sorted durLE l ∧ ∀ r ∈ l, r.duration < 240 := by
  unfold findRoutes at h
  by_cases h1 : g.isLoaded = false
  · rw [if_pos h1] at h
    cases h
    exact ⟨by simp, by simp, by simp⟩
  · rw [if_neg h1] at h
    by_cases h2 : ((findNearbyStopsWithDistance calculateDistance g pickup 20 2000).isEmpty ||
        (findNearbyStopsWithDistance calculateDistance g drop 20 2000).isEmpty) = true
    · rw [if_pos h2] at h
      cases h
      exact ⟨by simp, by simp, by simp⟩
    · rw [if_neg h2] at h
      cases hE : (if (findDirectRoutes g weekday pickup drop
            (findNearbyStopsWithDistance calculateDistance g pickup 20 2000)
            (findNearbyStopsWithDistance calculateDistance g drop 20 2000)).length < 5 then
          findTransferRoutes calculateDistance g weekday pickup drop
            (findNearbyStopsWithDistance calculateDistance g pickup 20 2000)
            (findNearbyStopsWithDistance calculateDistance g drop 20 2000)
        else .ok []) with
      | error e => rw [hE] at h; simp [Except.map] at h
      | ok tr =>
        rw [hE] at h
        simp only [Except.map, Except.ok.injEq] at h
        subst h
        exact rankAndTake_spec _ _

/-- The concrete output of `findRoutes` on the example feed used by the C4
witness (all four stops are within range of both endpoints under `distOne`). -/
def resC4 : List BusRouteResult :=
  (findRoutes Feeds.distOne Feeds.gB Feeds.wd Feeds.pickupEx Feeds.dropEx4).toOption.getD []

/-- C4 witness: the theorem applied to the example feed's concrete (non-empty)
output. -/
theorem c4_five_sorted_under240_witness :
    resC4.length ≤ 5 ∧ List.Sorted durLE resC4 ∧ ∀ r ∈ resC4, r.duration < 240 :=
  c4_five_sorted_under240 Feeds.distOne Feeds.gB Feeds.wd Feeds.pickupEx Feeds.dropEx4
    resC4 rfl

/-! ## Loop-invariant machinery for the search folds -/

theorem foldl_preserve {S A : Type} (f : S → A → S) (P : S → Prop)
    (hstep : ∀ s a, P s → P (f s a)) :
    ∀ (l : List A) (s : S), P s → P (l.foldl f s) := by
  intro l
  induction l with
  | nil => intro s hs; simpa using hs
  | cons a rest ih =>
    intro s hs
    rw [List.foldl_cons]
    exact ih _ (hstep s a hs)

theorem foldlM_except_preserve {S A : Type} (f : S → A → Except String S) (P : S → Prop)
    (hstep : ∀ s a s', P s → f s a = .ok s' → P s') :
    ∀ (l : List A) (s s' : S), P s → List.foldlM f s l = .ok s' → P s' := by
  intro l
  induction l with
  | nil =>
    intro s s' hs h
    simp only [List.foldlM_nil] at h
    cases h
    exact hs
  | cons a rest ih =>
    intro s s' hs h
    rw [List.foldlM_cons] at h
    cases hf : f s a with
    | error e => rw [hf] at h; simp [Bind.bind, Except.bind] at h
    | ok s1 =>
      rw [hf] at h
      simp only [Bind.bind, Except.bind] at h
      exact ih s1 s' (hstep s a s1 hs hf) h

theorem foldlM_except_total {S A : Type} (f : S → A → Except String S)
    (hstep : ∀ s a, ∃ s', f s a = .ok s') :
    ∀ (l : List A) (s : S), ∃ s', List.foldlM f s l = .ok s' := by
  intro l
  induction l with
  | nil => intro s; exact ⟨s, rfl⟩
  | cons a rest ih =>
    intro s
    obtain ⟨s1, hf⟩ := hstep s a
    obtain ⟨s2, hrest⟩ := ih s1
    refine ⟨s2, ?_⟩
    rw [List.foldlM_cons, hf]
    simpa [Bind.bind, Except.bind] using hrest

/-! ## Claim C6 — transfer waits in `[0, 45)` minutes -/

/-- The wait shown on a transfer itinerary: the duration of its third segment
(the `Transfer at …` segment), in minutes. -/
def transferWaitOf (r : BusRouteResult) : Option Int := r.segments[2]?.map (·.duration)

/-- Search invariant: every accumulated result records a transfer wait in
`[0, 45)` minutes. -/
def WaitOk (s : SearchState) : Prop :=
  ∀ r ∈ s.results, ∃ w, transferWaitOf r = some w ∧ 0 ≤ w ∧ w < 45

/-- With the transfer stop present, the builder succeeds and its third segment's
duration is `floor((tSt2.departure − tSt1.arrival) / 60)` minutes. -/
theorem buildTransferRouteResult_ok (calculateDistance : Int → Int → Int → Int → Int)
    (g : BusData) (pickup drop : GeoLocation) (pStopItem dStopItem : NearStop)
    (trip1 : Trip) (route1 : Route) (trip2 : Trip) (route2 : Route)
    (pSt tSt1 tSt2 dSt : StopTime) (trip1Stops trip2Stops : List StopTime) (ts : Stop) :
    ∃ r, buildTransferRouteResult calculateDistance g pickup drop pStopItem dStopItem
        trip1 route1 trip2 route2 pSt tSt1 tSt2 dSt trip1Stops trip2Stops (some ts) = .ok r ∧
      transferWaitOf r =
        some (calculateDurationInMinutes tSt1.arrival_time tSt2.departure_time) :=
  ⟨_, rfl, rfl⟩

/-- The guarded wait is in range: `0 ≤ Δ < 2700` seconds gives
`0 ≤ ⌊Δ/60⌋ < 45` minutes. -/
theorem wait_minutes_in_range (arr1 dep2 : Int) (h0 : 0 ≤ dep2 - arr1)
    (h1 : dep2 - arr1 < 45 * 60) :
    0 ≤ calculateDurationInMinutes arr1 dep2 ∧ calculateDurationInMinutes arr1 dep2 < 45 := by
  unfold calculateDurationInMinutes
  rw [Int.fdiv_eq_ediv _ (by omega)]
  constructor
  · exact Int.ediv_nonneg h0 (by omega)
  · exact (Int.ediv_lt_iff_lt_mul (by omega)).mpr h1

theorem transferStepD_waitOk (calculateDistance : Int → Int → Int → Int → Int) (g : BusData)
    (weekday : Fin 7) (pickup drop : GeoLocation) (pStopItem : NearStop)
    (pRouteId transferStopId : String) (dRoutesMap : List (String × NearStop))
    (s : SearchState) (dRouteId : String) (s' : SearchState) (hP : WaitOk s)
    (h : transferStepD calculateDistance g weekday pickup drop pStopItem pRouteId transferStopId
      dRoutesMap s dRouteId = .ok s') : WaitOk s' := by
  unfold transferStepD at h
  by_cases h0 : s.done = true
  · simp only [h0, if_true] at h
    cases h
    exact hP
  · simp only [Bool.not_eq_true] at h0
    simp only [h0, Bool.false_eq_true, if_false] at h
    cases hm1 : mget dRouteId dRoutesMap with
    | none => simp only [hm1] at h; cases h; exact hP
    | some dStopItem =>
      simp only [hm1] at h
      cases hm2 : mget dRouteId g.stopsByRoute with
      | none => simp only [hm2] at h; cases h; exact hP
      | some dRouteStops =>
        simp only [hm2] at h
        split at h
        next hidx =>
          split at h
          next hseen => cases h; exact hP
          next hseen =>
            cases hm3 : mget transferStopId g.stops with
            | none => simp only [hm3] at h; cases h; exact hP
            | some transferStop =>
              simp only [hm3] at h
              cases hm4 : findTripForLeg g weekday pRouteId pStopItem.stop.stop_id
                  transferStopId none with
              | none => simp only [hm4] at h; cases h; exact hP
              | some trip1Info =>
                simp only [hm4] at h
                cases hm5 : findTripForLeg g weekday dRouteId transferStopId
                    dStopItem.stop.stop_id (some trip1Info.endSt.arrival_time) with
                | none => simp only [hm5] at h; cases h; exact hP
                | some trip2Info =>
                  simp only [hm5] at h
                  split at h
                  next hwait =>
                    cases hm6 : mget pRouteId g.routes with
                    | none => simp only [hm6] at h; cases h
                    | some route1 =>
                      simp only [hm6] at h
                      cases hm7 : mget dRouteId g.routes with
                      | none => simp only [hm7] at h; cases h
                      | some route2 =>
                        simp only [hm7] at h
                        obtain ⟨r, hr, hw⟩ := buildTransferRouteResult_ok calculateDistance g
                          pickup drop pStopItem dStopItem trip1Info.trip route1 trip2Info.trip
                          route2 trip1Info.start trip1Info.endSt trip2Info.start trip2Info.endSt
                          trip1Info.stops trip2Info.stops transferStop
                        rw [hr] at h
                        simp only [Except.bind, Except.ok.injEq] at h
                        cases h
                        intro r' hr'
                        rcases List.mem_append.mp hr' with hmem | hmem
                        · exact hP r' hmem
                        · have : r' = r := by simpa using hmem
                          subst this
                          obtain ⟨hge, hlt⟩ := wait_minutes_in_range _ _ hwait.1 hwait.2
                          exact ⟨_, hw, hge, hlt⟩
                  next hwait => cases h; exact hP
        next hidx => cases h; exact hP

theorem transferStepI_waitOk (calculateDistance : Int → Int → Int → Int → Int) (g : BusData)
    (weekday : Fin 7) (pickup drop : GeoLocation) (pStopItem : NearStop) (pRouteId : String)
    (stopsToDropRoutes : List (String × List String)) (dRoutesMap : List (String × NearStop))
    (s : SearchState) (transferStopId : String) (s' : SearchState) (hP : WaitOk s)
    (h : transferStepI calculateDistance g weekday pickup drop pStopItem pRouteId
      stopsToDropRoutes dRoutesMap s transferStopId = .ok s') : WaitOk s' := by
  unfold transferStepI at h
  by_cases h0 : s.done = true
  · simp only [h0, if_true] at h; cases h; exact hP
  · simp only [Bool.not_eq_true] at h0
    simp only [h0, Bool.false_eq_true, if_false] at h
    cases hm : mget transferStopId stopsToDropRoutes with
    | none => simp only [hm] at h; cases h; exact hP
    | some connectingDropRoutes =>
      simp only [hm] at h
      exact foldlM_except_preserve _ WaitOk
        (fun s a s' hp hf => transferStepD_waitOk calculateDistance g weekday pickup drop
          pStopItem pRouteId transferStopId dRoutesMap s a s' hp hf)
        connectingDropRoutes s s' hP h

theorem transferStepP_waitOk (calculateDistance : Int → Int → Int → Int → Int) (g : BusData)
    (weekday : Fin 7) (pickup drop : GeoLocation)
    (pRoutesMap dRoutesMap : List (String × NearStop))
    (stopsToDropRoutes : List (String × List String))
    (s : SearchState) (pRouteId : String) (s' : SearchState) (hP : WaitOk s)
    (h : transferStepP calculateDistance g weekday pickup drop pRoutesMap dRoutesMap
      stopsToDropRoutes s pRouteId = .ok s') : WaitOk s' := by
  unfold transferStepP at h
  by_cases h0 : s.done = true
  · simp only [h0, if_true] at h; cases h; exact hP
  · simp only [Bool.not_eq_true] at h0
    simp only [h0, Bool.false_eq_true, if_false] at h
    cases hm1 : mget pRouteId g.stopsByRoute with
    | none => simp only [hm1] at h; cases h; exact hP
    | some pRouteStops =>
      simp only [hm1] at h
      cases hm2 : mget pRouteId pRoutesMap with
      | none => simp only [hm2] at h; cases h; exact hP
      | some pStopItem =>
        simp only [hm2] at h
        cases hm3 : pRouteStops.findIdx? (fun st => st == pStopItem.stop.stop_id) with
        | none => simp only [hm3] at h; cases h; exact hP
        | some pStartIndex =>
          simp only [hm3] at h
          exact foldlM_except_preserve _ WaitOk
            (fun s a s' hp hf => transferStepI_waitOk calculateDistance g weekday pickup drop
              pStopItem pRouteId stopsToDropRoutes dRoutesMap s a s' hp hf)
            (pRouteStops.drop (pStartIndex + 1)) s s' hP h

/-- C6.  Every itinerary returned by the transfer search records a wait between
the first leg's arrival at the transfer stop and the second leg's boarding
departure of at least 0 and strictly under 45 minutes. -/
theorem c6_transfer_wait_bounded (calculateDistance : Int → Int → Int → Int → Int)
    (g : BusData) (weekday : Fin 7) (pickup drop : GeoLocation)
    (pStops dStops : List NearStop) (res : List BusRouteResult)
    (h : findTransferRoutes calculateDistance g weekday pickup drop pStops dStops = .ok res) :
    ∀ r ∈ res, ∃ w, transferWaitOf r = some w ∧ 0 ≤ w ∧ w < 45 := by
  unfold findTransferRoutes at h
  cases hF : List.foldlM
      (transferStepP calculateDistance g weekday pickup drop
        (buildSingleRouteMap g (pStops.take 5)) (buildSingleRouteMap g (dStops.take 5))
        (buildStopsToDropRoutes g ((buildSingleRouteMap g (dStops.take 5)).map (·.1))))
      ⟨[], [], false⟩ ((buildSingleRouteMap g (pStops.take 5)).map (·.1)) with
  | error e => rw [hF] at h; simp [Except.map] at h
  | ok sF =>
    rw [hF] at h
    simp only [Except.map, Except.ok.injEq] at h
    subst h
    have hempty : WaitOk ⟨[], [], false⟩ := by intro r hr; simp at hr
    exact foldlM_except_preserve _ WaitOk
      (fun s a s' hp hf => transferStepP_waitOk calculateDistance g weekday pickup drop
        _ _ _ s a s' hp hf)
      _ _ sF hempty hF

instance : Inhabited BusRouteResult :=
  ⟨⟨"", "", "", 0, 0, 0, 0, 0, [], [], 0⟩⟩

/-- The concrete transfer search output on the example feed (exactly the
`R1 → S3 → R2` itinerary with a 5-minute wait). -/
def resC6 : List BusRouteResult :=
  (findTransferRoutes Feeds.distOne Feeds.gB Feeds.wd Feeds.pickupEx Feeds.dropEx4
      [Feeds.nearS1] [Feeds.nearS4]).toOption.getD []

/-- C6 witness: the single transfer itinerary of the example feed has its wait in
`[0, 45)` (it is 5 minutes). -/
theorem c6_transfer_wait_bounded_witness :
    ∃ w, transferWaitOf resC6.head! = some w ∧ 0 ≤ w ∧ w < 45 :=
  c6_transfer_wait_bounded Feeds.distOne Feeds.gB Feeds.wd Feeds.pickupEx Feeds.dropEx4
    [Feeds.nearS1] [Feeds.nearS4] resC6 rfl resC6.head!
    (List.head!_mem_self (by decide))

/-! ## Claim C9 — the planner never throws -/

/-- Referential integrity of the loaded feed: every route id that has a
representative stop list also has a `routes.csv` row.  `stopsByRoute` keys come
from `trips.csv` rows (`routeSampleTrip`, loadData lines 146–151), so this is the
spec's §3 "a Trip belongs to exactly one Route" invariant; without it the
source's `this.routes.get(...)!.route_short_name` dereference in the transfer
search could raise a `TypeError` (the direct search guards the same lookup). -/
def routesTotal (g : BusData) : Bool :=
  g.stopsByRoute.all fun pr => (mget pr.1 g.routes).isSome

theorem transferStepD_total (calculateDistance : Int → Int → Int → Int → Int) (g : BusData)
    (weekday : Fin 7) (pickup drop : GeoLocation) (pStopItem : NearStop)
    (pRouteId transferStopId : String) (dRoutesMap : List (String × NearStop))
    (hro : routesTotal g = true) (hpR : (mget pRouteId g.routes).isSome = true)
    (s : SearchState) (dRouteId : String) :
    ∃ s', transferStepD calculateDistance g weekday pickup drop pStopItem pRouteId
      transferStopId dRoutesMap s dRouteId = .ok s' := by
  unfold transferStepD
  split
  · exact ⟨_, rfl⟩
  · split
    · exact ⟨_, rfl⟩
    · split
      · exact ⟨_, rfl⟩
      · next dRouteStops hm2 =>
        split
        · split
          · exact ⟨_, rfl⟩
          · split
            · exact ⟨_, rfl⟩
            · split
              · exact ⟨_, rfl⟩
              · split
                · exact ⟨_, rfl⟩
                · split
                  · split
                    · exact ⟨_, rfl⟩
                    · next hne =>
                      exfalso
                      obtain ⟨r1, hr1⟩ := Option.isSome_iff_exists.mp hpR
                      have hd : (mget dRouteId g.routes).isSome = true := by
                        have hmem := mget_mem hm2
                        exact List.all_eq_true.mp hro _ hmem
                      obtain ⟨r2, hr2⟩ := Option.isSome_iff_exists.mp hd
                      exact hne r1 r2 hr1 hr2
                  · exact ⟨_, rfl⟩
        · exact ⟨_, rfl⟩

theorem transferStepI_total (calculateDistance : Int → Int → Int → Int → Int) (g : BusData)
    (weekday : Fin 7) (pickup drop : GeoLocation) (pStopItem : NearStop) (pRouteId : String)
    (stopsToDropRoutes : List (String × List String)) (dRoutesMap : List (String × NearStop))
    (hro : routesTotal g = true) (hpR : (mget pRouteId g.routes).isSome = true)
    (s : SearchState) (transferStopId : String) :
    ∃ s', transferStepI calculateDistance g weekday pickup drop pStopItem pRouteId
      stopsToDropRoutes dRoutesMap s transferStopId = .ok s' := by
  unfold transferStepI
  split
  · exact ⟨_, rfl⟩
  · split
    · exact ⟨_, rfl⟩
    · exact foldlM_except_total _
        (fun s a => transferStepD_total calculateDistance g weekday pickup drop pStopItem
          pRouteId transferStopId dRoutesMap hro hpR s a) _ s

theorem transferStepP_total (calculateDistance : Int → Int → Int → Int → Int) (g : BusData)
    (weekday : Fin 7) (pickup drop : GeoLocation)
    (pRoutesMap dRoutesMap : List (String × NearStop))
    (stopsToDropRoutes : List (String × List String))
    (hro : routesTotal g = true) (s : SearchState) (pRouteId : String) :
    ∃ s', transferStepP calculateDistance g weekday pickup drop pRoutesMap dRoutesMap
      stopsToDropRoutes s pRouteId = .ok s' := by
  unfold transferStepP
  split
  · exact ⟨_, rfl⟩
  · split
    · exact ⟨_, rfl⟩
    · next pRouteStops hm1 =>
      split
      · exact ⟨_, rfl⟩
      · split
        · exact ⟨_, rfl⟩
        · have hpR : (mget pRouteId g.routes).isSome = true :=
            List.all_eq_true.mp hro _ (mget_mem hm1)
          exact foldlM_except_total _
            (fun s a => transferStepI_total calculateDistance g weekday pickup drop _
              pRouteId stopsToDropRoutes dRoutesMap hro hpR s a) _ s

/-- The transfer search never throws on a referentially intact feed (in
particular the `Transfer stop missing` branch of the builder is unreachable:
every call site checks `this.stops.get(transferStopId)` first). -/
theorem findTransferRoutes_total (calculateDistance : Int → Int → Int → Int → Int)
    (g : BusData) (weekday : Fin 7) (pickup drop : GeoLocation)
    (pStops dStops : List NearStop) (hro : routesTotal g = true) :
    ∃ res, findTransferRoutes calculateDistance g weekday pickup drop pStops dStops =
      .ok res := by
  unfold findTransferRoutes
  obtain ⟨sF, hF⟩ := foldlM_except_total
    (transferStepP calculateDistance g weekday pickup drop
      (buildSingleRouteMap g (pStops.take 5)) (buildSingleRouteMap g (dStops.take 5))
      (buildStopsToDropRoutes g ((buildSingleRouteMap g (dStops.take 5)).map (·.1))))
    (fun s a => transferStepP_total calculateDistance g weekday pickup drop _ _ _ hro s a)
    ((buildSingleRouteMap g (pStops.take 5)).map (·.1)) ⟨[], [], false⟩
  exact ⟨sF.results, by rw [hF]; rfl⟩

/-- C9.  On a referentially intact feed (`routesTotal`: every route id with a
stop list has a `routes.csv` row — the spec's trip/route integrity invariant),
`findRoutes` never throws for any coordinates: it always returns `.ok`, and it
returns `[]` when the feed is not loaded or when either endpoint has no stop
within 2.0 km.  The transfer search likewise always returns `.ok` — the
`Transfer stop missing` branch of `buildTransferRouteResult` is unreachable
because the transfer stop is looked up and checked before assembly. -/
theorem c9_never_throws (calculateDistance : Int → Int → Int → Int → Int) (g : BusData)
    (weekday : Fin 7) (pickup drop : GeoLocation) (pStops dStops : List NearStop)
    (hro : routesTotal g = true) :
    (∃ l, findRoutes calculateDistance g weekday pickup drop = .ok l ∧
      (g.isLoaded = false → l = []) ∧
      (((findNearbyStopsWithDistance calculateDistance g pickup 20 2000).isEmpty = true ∨
          (findNearbyStopsWithDistance calculateDistance g drop 20 2000).isEmpty = true) →
        l = [])) ∧
    (∃ res, findTransferRoutes calculateDistance g weekday pickup drop pStops dStops =
      .ok res) := by
  refine ⟨?_, findTransferRoutes_total calculateDistance g weekday pickup drop pStops dStops hro⟩
  unfold findRoutes
  by_cases h1 : g.isLoaded = false
  · rw [if_pos h1]
    exact ⟨[], rfl, fun _ => rfl, fun _ => rfl⟩
  · rw [if_neg h1]
    by_cases h2 : ((findNearbyStopsWithDistance calculateDistance g pickup 20 2000).isEmpty ||
        (findNearbyStopsWithDistance calculateDistance g drop 20 2000).isEmpty) = true
    · rw [if_pos h2]
      exact ⟨[], rfl, fun _ => rfl, fun _ => rfl⟩
    · rw [if_neg h2]
      have himp1 : g.isLoaded = false → False := fun hc => h1 hc
      have himp2 : ((findNearbyStopsWithDistance calculateDistance g pickup 20 2000).isEmpty =
          true ∨ (findNearbyStopsWithDistance calculateDistance g drop 20 2000).isEmpty =
          true) → False := by
        intro hc
        apply h2
        rcases hc with hc | hc <;> simp [hc]
      by_cases h3 : (findDirectRoutes g weekday pickup drop
          (findNearbyStopsWithDistance calculateDistance g pickup 20 2000)
          (findNearbyStopsWithDistance calculateDistance g drop 20 2000)).length < 5
      · rw [if_pos h3]
        obtain ⟨tr, htr⟩ := findTransferRoutes_total calculateDistance g weekday pickup drop
          (findNearbyStopsWithDistance calculateDistance g pickup 20 2000)
          (findNearbyStopsWithDistance calculateDistance g drop 20 2000) hro
        refine ⟨rankAndTake (findDirectRoutes g weekday pickup drop
            (findNearbyStopsWithDistance calculateDistance g pickup 20 2000)
            (findNearbyStopsWithDistance calculateDistance g drop 20 2000)) tr,
          ?_, fun hc => absurd hc h1, fun hc => absurd hc himp2⟩
        rw [htr]
        rfl
      · rw [if_neg h3]
        exact ⟨_, rfl, fun hc => absurd hc h1, fun hc => absurd hc himp2⟩

/-- C9 witness: on the unloaded feed the planner returns `.ok []`, and on the
loaded example feed the transfer search returns `.ok` (both instances of the
theorem at concrete inputs). -/
theorem c9_never_throws_witness :
    (∃ l, findRoutes Feeds.distOne Feeds.gUnloaded Feeds.wd Feeds.pickupEx Feeds.dropEx4 =
        .ok l ∧
      (Feeds.gUnloaded.isLoaded = false → l = []) ∧
      (((findNearbyStopsWithDistance Feeds.distOne Feeds.gUnloaded Feeds.pickupEx 20
            2000).isEmpty = true ∨
          (findNearbyStopsWithDistance Feeds.distOne Feeds.gUnloaded Feeds.dropEx4 20
            2000).isEmpty = true) → l = [])) ∧
    (∃ res, findTransferRoutes Feeds.distOne Feeds.gUnloaded Feeds.wd Feeds.pickupEx
        Feeds.dropEx4 [Feeds.nearS1] [Feeds.nearS4] = .ok res) :=
  c9_never_throws Feeds.distOne Feeds.gUnloaded Feeds.wd Feeds.pickupEx Feeds.dropEx4
    [Feeds.nearS1] [Feeds.nearS4] (by decide)

/-! ## Claim C2 — the direct search and the call time -/

/-- C2, counterexample.  The claim says the direct search invokes trip selection
with `earliestSec = now` and skips boarding stop times departing before `now`, so
that every direct itinerary departs at or after the call time.  In the code
(line 347) `findTripForLeg` is called with **no** `afterTimeSec` argument.  On the
example feed, with the wall clock at 11:00:00 (39600 s), the direct search still
returns the itinerary boarding at 10:00:00 (36000 s < 39600 s) — its output does
not depend on the call time at all — while trip selection *with* the claimed
bound of 39600 s finds no trip. -/
theorem c2_counterexample :
    (findDirectRoutes Feeds.gB Feeds.wd Feeds.pickupEx Feeds.dropEx [Feeds.nearS1]
        [Feeds.nearS3]).map (·.departure_time) = [36000] ∧
      (36000 : Int) < 39600 ∧
      findTripForLeg Feeds.gB Feeds.wd "R1" "S1" "S3" (some 39600) = none := by
  refine ⟨by decide, by decide, by decide⟩

/-- Search invariant for the direct search: every accumulated result's bus leg
comes from a `findTripForLeg` call with no lower time bound. -/
def DirectFromUnbounded (g : BusData) (weekday : Fin 7) (s : SearchState) : Prop :=
  ∀ r ∈ s.results, ∃ routeId boardStopId alightStopId info,
    findTripForLeg g weekday routeId boardStopId alightStopId none = some info ∧
    r.departure_time = info.start.departure_time ∧
    r.arrival_time = info.endSt.arrival_time

theorem directInnerD_sound (g : BusData) (weekday : Fin 7) (pickup drop : GeoLocation)
    (routeId : String) (routeStops : List String) (pStopItem : NearStop)
    (s : SearchState) (dStopItem : NearStop) (hP : DirectFromUnbounded g weekday s) :
    DirectFromUnbounded g weekday
      (directInnerD g weekday pickup drop routeId routeStops pStopItem s dStopItem) := by
  unfold directInnerD
  split
  · split
    · exact hP
    · split
      · exact hP
      · next tripInfo hm =>
        split
        · exact hP
        · intro r hr
          rcases List.mem_append.mp hr with hmem | hmem
          · exact hP r hmem
          · have heqr := List.eq_of_mem_singleton hmem
            subst heqr
            exact ⟨routeId, pStopItem.stop.stop_id, dStopItem.stop.stop_id, tripInfo, hm,
              rfl, rfl⟩
  · exact hP

theorem directInnerP_sound (g : BusData) (weekday : Fin 7) (pickup drop : GeoLocation)
    (routeId : String) (routeStops : List String) (dItems : List NearStop)
    (s : SearchState) (pStopItem : NearStop) (hP : DirectFromUnbounded g weekday s) :
    DirectFromUnbounded g weekday
      (directInnerP g weekday pickup drop routeId routeStops dItems s pStopItem) := by
  unfold directInnerP
  split
  · exact hP
  · exact foldl_preserve _ (DirectFromUnbounded g weekday)
      (fun s a hp => directInnerD_sound g weekday pickup drop routeId routeStops pStopItem
        s a hp)
      dItems s hP

theorem directRouteStep_sound (g : BusData) (weekday : Fin 7) (pickup drop : GeoLocation)
    (pMap dMap : List (String × List NearStop)) (s : SearchState) (routeId : String)
    (hP : DirectFromUnbounded g weekday s) :
    DirectFromUnbounded g weekday
      (directRouteStep g weekday pickup drop pMap dMap s routeId) := by
  unfold directRouteStep
  split
  · exact hP
  · split
    · exact hP
    · exact foldl_preserve _ (DirectFromUnbounded g weekday)
        (fun s a hp => directInnerP_sound g weekday pickup drop routeId _ _ s a hp)
        _ s hP

/-- C2, amended.  In the direct search, trip selection is invoked with **no**
earliest-departure bound (`afterTimeSec` omitted): every returned direct
itinerary's bus leg is the result of a `findTripForLeg` call with bound `none`,
which picks the earliest departing active trip regardless of the wall-clock call
time, so a direct itinerary may depart before the call time. -/
theorem c2_amended_direct_unbounded (g : BusData) (weekday : Fin 7)
    (pickup drop : GeoLocation) (pStops dStops : List NearStop) :
    ∀ r ∈ findDirectRoutes g weekday pickup drop pStops dStops,
      ∃ routeId boardStopId alightStopId info,
        findTripForLeg g weekday routeId boardStopId alightStopId none = some info ∧
        r.departure_time = info.start.departure_time ∧
        r.arrival_time = info.endSt.arrival_time := by
  unfold findDirectRoutes
  exact foldl_preserve _ (DirectFromUnbounded g weekday)
    (fun s a hp => directRouteStep_sound g weekday pickup drop _ _ s a hp)
    _ _ (fun r hr => by simp at hr)

/-- C2 witness (for the amended claim): the single direct itinerary of the
example feed departs at its `findTripForLeg`-with-`none` boarding time. -/
theorem c2_amended_direct_unbounded_witness :
    ∃ routeId boardStopId alightStopId info,
      findTripForLeg Feeds.gB Feeds.wd routeId boardStopId alightStopId none = some info ∧
      (findDirectRoutes Feeds.gB Feeds.wd Feeds.pickupEx Feeds.dropEx [Feeds.nearS1]
          [Feeds.nearS3]).head!.departure_time = info.start.departure_time ∧
      (findDirectRoutes Feeds.gB Feeds.wd Feeds.pickupEx Feeds.dropEx [Feeds.nearS1]
          [Feeds.nearS3]).head!.arrival_time = info.endSt.arrival_time :=
  c2_amended_direct_unbounded Feeds.gB Feeds.wd Feeds.pickupEx Feeds.dropEx [Feeds.nearS1]
    [Feeds.nearS3] _ (List.head!_mem_self (by decide))

/-! ## Claim C3 — bus-leg distances and fares -/

/-- C3, counterexample.  The claim says every bus leg's reported distance is the
sum of great-circle hops over the included stop sequence.  That is true of the
transfer builder, but the direct builder (line 573) uses
`routeStops.length * 0.5` km instead.  On the example feed with every hop
2000 m long (`dist2000`), the returned direct itinerary reports a bus distance
of 1500 m (3 included stops × 500 m) while the great-circle sum over its own
included stop sequence is 4000 m. -/
theorem c3_counterexample :
    ((findDirectRoutes Feeds.gB Feeds.wd Feeds.pickupEx Feeds.dropEx [Feeds.nearS1]
          [Feeds.nearS3]).head!.segments[1]?).map (·.distance) = some 1500 ∧
      calculateRouteDistance Feeds.dist2000
        ((extractRouteStops Feeds.gB [Feeds.st1, Feeds.st2, Feeds.st3]
            Feeds.st1.stop_sequence Feeds.st3.stop_sequence).map (fun s => (s.lat, s.lng))) =
        4000 ∧
      (1500 : Int) ≠ 4000 := by
  refine ⟨by decide, by decide, by decide⟩

/-- C3, amended.  Transfer bus legs report the great-circle sum
(`calculateRouteDistance`) over their included stop sequence and the itinerary's
fare is the sum of the two per-leg slabs of those distances; direct bus legs
instead report 500 m per included stop (`routeStops.length * 0.5` km) and the
fare is the slab of that approximated distance. -/
theorem c3_amended_leg_distance_fare (calculateDistance : Int → Int → Int → Int → Int)
    (g : BusData) (pickup drop : GeoLocation) (pStopItem dStopItem : NearStop)
    (trip : Trip) (pSt dSt : StopTime) (tripStopTimes : List StopTime) (routeName : String)
    (trip1 : Trip) (route1 : Route) (trip2 : Trip) (route2 : Route)
    (pSt2 tSt1 tSt2 dSt2 : StopTime) (trip1Stops trip2Stops : List StopTime) (ts : Stop) :
    (((buildRouteResult g pickup drop pStopItem dStopItem trip pSt dSt tripStopTimes
          routeName).segments[1]?).map (·.distance) =
        some (((extractRouteStops g tripStopTimes pSt.stop_sequence
          dSt.stop_sequence).length : Int) * 500) ∧
      (buildRouteResult g pickup drop pStopItem dStopItem trip pSt dSt tripStopTimes
          routeName).fare =
        calculateBusFare (((extractRouteStops g tripStopTimes pSt.stop_sequence
          dSt.stop_sequence).length : Int) * 500)) ∧
    (buildTransferRouteResult calculateDistance g pickup drop pStopItem dStopItem
        trip1 route1 trip2 route2 pSt2 tSt1 tSt2 dSt2 trip1Stops trip2Stops (some ts)).map
      (fun r => ((r.segments[1]?).map (·.distance), (r.segments[3]?).map (·.distance), r.fare)) =
      .ok
        (some (calculateRouteDistance calculateDistance
          ((extractRouteStops g trip1Stops pSt2.stop_sequence tSt1.stop_sequence).map
            (fun s => (s.lat, s.lng)))),
         some (calculateRouteDistance calculateDistance
          ((extractRouteStops g trip2Stops tSt2.stop_sequence dSt2.stop_sequence).map
            (fun s => (s.lat, s.lng)))),
         calculateBusFare (calculateRouteDistance calculateDistance
          ((extractRouteStops g trip1Stops pSt2.stop_sequence tSt1.stop_sequence).map
            (fun s => (s.lat, s.lng)))) +
          calculateBusFare (calculateRouteDistance calculateDistance
          ((extractRouteStops g trip2Stops tSt2.stop_sequence dSt2.stop_sequence).map
            (fun s => (s.lat, s.lng))))) :=
  ⟨⟨rfl, rfl⟩, rfl⟩

end FareCompare
